import Mathlib

/-!
# Text-state tracking of pdf2htmlEX (`src/HTMLRenderer/state.cc`)

A shallow embedding of the state-change classifier `HTMLRenderer::check_state_change`, the
line lifecycle glue (`prepare_text_line`, `close_text_line`), the `update*` callbacks and
`reset_state`, followed by theorems about them.

Conventions of the embedding.

* `double` is modelled by `ℚ` with exact arithmetic: rounding, infinities and NaN are not
  represented. Statements that would depend on them are either conditional on the outcome of
  the tests of the code, or stated for values that are finite doubles (`finite_value`), or
  named as holding in exact arithmetic.
* The helpers of `util/math.h` are not among the sources: `equal`, `tm_equal` and the colour
  equality follow the spec, and `is_positive` is a parameter of the environment.
* The renderer object is an explicit record `HTMLRenderer`; every member function becomes a
  function from the record to the record.
* The line buffer (`TextLineBuffer.h` only declares it) is represented by the sequence of calls
  made on it, `text_line_buf : List BufOp`.
* `div_log` is instrumentation: it records, in order, the divisor of every `/` executed.
* `assert` and the lookup in the `FILL` / `STROKE` tables are fallible, so
  `check_state_change` returns an `Option`.
-/

namespace pdf2htmlEX

/-! ## Values -/

/-- Modelled from the spec: the verdict enumeration `NewLineState` of `HTMLRenderer.h`, which is
not among the sources; its members are ordered None < Span < Div. -/
inductive NewLineState where
  | NLS_NONE
  | NLS_SPAN
  | NLS_DIV
  deriving DecidableEq, Repr

/-- Position of a verdict in the enumeration. -/
def NewLineState.rank : NewLineState → Nat
  | .NLS_NONE => 0
  | .NLS_SPAN => 1
  | .NLS_DIV => 2

/-- The enumeration order; `max` of this order is `std::max<NewLineState>`. -/
instance : LinearOrder NewLineState :=
  LinearOrder.lift' NewLineState.rank (by
    intro a b h
    cases a <;> cases b <;> simp [NewLineState.rank] at h <;> rfl)

/-- A `double[6]` transformation matrix; `e0 .. e5` are the entries `[0] .. [5]`. -/
structure TM where
  e0 : ℚ
  e1 : ℚ
  e2 : ℚ
  e3 : ℚ
  e4 : ℚ
  e5 : ℚ
  deriving DecidableEq, Repr

/-- Entry `tm[i]`. -/
def TM.get (t : TM) : Nat → ℚ
  | 0 => t.e0
  | 1 => t.e1
  | 2 => t.e2
  | 3 => t.e3
  | 4 => t.e4
  | 5 => t.e5
  | _ => 0

/-- The loop `for(int i = 0; i < 4; ++i) tm[i] = f(tm[i])`. -/
def TM.map4 (f : ℚ → ℚ) (t : TM) : TM :=
  { t with e0 := f t.e0, e1 := f t.e1, e2 := f t.e2, e3 := f t.e3 }

/-- Modelled from the spec: the constant `ID_MATRIX` (declared outside the sources), the identity
matrix. -/
def ID_MATRIX : TM := ⟨1, 0, 0, 1, 0, 0⟩

/-- The `GfxRGB` triple returned by `getFillRGB` / `getStrokeRGB`. -/
structure GfxRGB where
  r : ℚ
  g : ℚ
  b : ℚ
  deriving DecidableEq, Repr

/-- Modelled from the spec: `Color` (declared outside the sources), a transparency tag plus an RGB
triple. -/
structure Color where
  transparent : Bool
  rgb : GfxRGB
  deriving DecidableEq, Repr

/-- A PDF font object as handed to the font installer. -/
abbrev GfxFont := Nat

/-- Modelled from the spec: `FontInfo` (declared outside the sources), an identifier plus the
type-3 flag. -/
structure FontInfo where
  id : Int
  is_type3 : Bool
  deriving DecidableEq, Repr

/-- External collaborators of `state.cc` that are not among the sources: the comparison
tolerance `EPS`, the library function `hypot`, the font installer `install_font`, and the test
`positive` behind `is_positive` of `util/math.h`. The spec describes that test as `s > 0`
(section 4.1, step 4) and asks for epsilon-aware comparators (section 9, which would make it
`s > EPS`); the environment leaves the choice open and fixes only what both readings share:
a value that the test accepts is positive. -/
structure Env where
  EPS : ℚ
  hypot : ℚ → ℚ → ℚ
  install_font : Option GfxFont → FontInfo
  positive : ℚ → Bool
  positive_pos : ∀ x, positive x = true → 0 < x

/-- Modelled from the spec: `equal` of `util/math.h` (not among the sources), the epsilon-aware
comparator of section 9: `equal(a,0)` is `|a| < ε`. -/
def equal (E : Env) (x y : ℚ) : Bool :=
  decide (abs (x - y) < E.EPS)

/-- Modelled from the spec: `is_positive` of `util/math.h` (not among the sources). The spec
supports two readings of it, `s > 0` and the epsilon-aware `s > EPS`, so it is the test supplied
by the environment, of which only "accepted values are positive" is assumed. -/
def is_positive (E : Env) (x : ℚ) : Bool :=
  E.positive x

/-- Modelled from the spec: `tm_equal` of `util/math.h` (not among the sources), the comparison of
the first `size` entries of two matrices with the epsilon comparator. -/
def tm_equal (E : Env) (tm1 tm2 : TM) (size : Nat) : Bool :=
  (List.range size).all fun i => equal E (tm1.get i) (tm2.get i)

/-- Modelled from the spec: `Color::operator==` (declared outside the sources): transparent equals
transparent, otherwise the channels are compared with the epsilon comparator. -/
def Color.eq (E : Env) (c1 c2 : Color) : Bool :=
  if c1.transparent != c2.transparent then false
  else if c1.transparent then true
  else equal E c1.rgb.r c2.rgb.r && equal E c1.rgb.g c2.rgb.g && equal E c1.rgb.b c2.rgb.b

/-- The part of the observed `GfxState` that `state.cc` reads. -/
structure GfxState where
  LineX : ℚ
  LineY : ℚ
  CurX : ℚ
  CurY : ℚ
  Font : Option GfxFont
  FontSize : ℚ
  HorizScaling : ℚ
  CTM : TM
  TextMat : TM
  CharSpace : ℚ
  WordSpace : ℚ
  Rise : ℚ
  Render : Int
  FillRGB : GfxRGB
  StrokeRGB : GfxRGB
  transform : ℚ → ℚ → ℚ × ℚ

/-- The style attributes `cur_html_state` of the renderer. -/
structure HTMLState where
  font_info : FontInfo
  font_size : ℚ
  fill_color : Color
  stroke_color : Color
  letter_space : ℚ
  word_space : ℚ
  rise : ℚ
  x : ℚ
  y : ℚ
  transform_matrix : TM
  deriving DecidableEq, Repr

/-- A call made on `text_line_buf`. -/
inductive BufOp where
  | append_offset (width : ℚ)
  | append_state (html_state : HTMLState)
  | flush
  deriving DecidableEq, Repr

/-- The places of `state.cc` where a division is executed. -/
inductive DivSite where
  | by_text_scale_factor2
  | by_new_draw_text_scale
  | by_old_tm0
  | by_old_tm1
  | by_draw_text_scale
  deriving DecidableEq, Repr

/-- The configuration record `param`, reduced to the member read by `state.cc`. -/
structure Param where
  fallback : Bool
  deriving DecidableEq, Repr

/-- The members of `HTMLRenderer` used by `state.cc`. -/
structure HTMLRenderer where
  param : Param
  text_scale_factor2 : ℚ
  line_opened : Bool
  new_line_state : NewLineState
  all_changed : Bool
  rise_changed : Bool
  text_pos_changed : Bool
  font_changed : Bool
  ctm_changed : Bool
  text_mat_changed : Bool
  hori_scale_changed : Bool
  letter_space_changed : Bool
  word_space_changed : Bool
  fill_color_changed : Bool
  stroke_color_changed : Bool
  cur_tx : ℚ
  cur_ty : ℚ
  draw_tx : ℚ
  draw_ty : ℚ
  cur_font_size : ℚ
  cur_text_tm : TM
  draw_text_scale : ℚ
  cur_html_state : HTMLState
  text_line_buf : List BufOp
  div_log : List (DivSite × ℚ)
  deriving DecidableEq, Repr

/-! ## Update callbacks -/

def updateTextPos (state : GfxState) (R : HTMLRenderer) : HTMLRenderer :=
  { R with text_pos_changed := true, cur_tx := state.LineX, cur_ty := state.LineY }

def updateAll (state : GfxState) (R : HTMLRenderer) : HTMLRenderer :=
  updateTextPos state { R with all_changed := true }

def updateRise (_state : GfxState) (R : HTMLRenderer) : HTMLRenderer :=
  { R with rise_changed := true }

def updateTextShift (state : GfxState) (shift : ℚ) (R : HTMLRenderer) : HTMLRenderer :=
  { R with
    text_pos_changed := true
    cur_tx := R.cur_tx - shift * (1 / 1000) * state.FontSize * state.HorizScaling }

def updateFont (_state : GfxState) (R : HTMLRenderer) : HTMLRenderer :=
  { R with font_changed := true }

def updateCTM (_state : GfxState) (_m11 _m12 _m21 _m22 _m31 _m32 : ℚ) (R : HTMLRenderer) :
    HTMLRenderer :=
  { R with ctm_changed := true }

def updateTextMat (_state : GfxState) (R : HTMLRenderer) : HTMLRenderer :=
  { R with text_mat_changed := true }

def updateHorizScaling (_state : GfxState) (R : HTMLRenderer) : HTMLRenderer :=
  { R with hori_scale_changed := true }

def updateCharSpace (_state : GfxState) (R : HTMLRenderer) : HTMLRenderer :=
  { R with letter_space_changed := true }

def updateWordSpace (_state : GfxState) (R : HTMLRenderer) : HTMLRenderer :=
  { R with word_space_changed := true }

def updateRender (_state : GfxState) (R : HTMLRenderer) : HTMLRenderer :=
  { R with fill_color_changed := true, stroke_color_changed := true }

def updateFillColorSpace (_state : GfxState) (R : HTMLRenderer) : HTMLRenderer :=
  { R with fill_color_changed := true }

def updateStrokeColorSpace (_state : GfxState) (R : HTMLRenderer) : HTMLRenderer :=
  { R with stroke_color_changed := true }

def updateFillColor (_state : GfxState) (R : HTMLRenderer) : HTMLRenderer :=
  { R with fill_color_changed := true }

def updateStrokeColor (_state : GfxState) (R : HTMLRenderer) : HTMLRenderer :=
  { R with stroke_color_changed := true }

/-! ## Reset -/

def reset_state_change (R : HTMLRenderer) : HTMLRenderer :=
  { R with
    all_changed := false
    rise_changed := false
    text_pos_changed := false
    font_changed := false
    ctm_changed := false
    text_mat_changed := false
    hori_scale_changed := false
    letter_space_changed := false
    word_space_changed := false
    fill_color_changed := false
    stroke_color_changed := false }

def reset_state (E : Env) (R : HTMLRenderer) : HTMLRenderer :=
  let R1 : HTMLRenderer :=
    { R with
      draw_text_scale := 1
      cur_font_size := 0
      cur_text_tm := ID_MATRIX
      cur_html_state :=
        { R.cur_html_state with
          font_info := E.install_font none
          font_size := 0
          fill_color := { R.cur_html_state.fill_color with transparent := true }
          stroke_color := { R.cur_html_state.stroke_color with transparent := true }
          letter_space := 0
          word_space := 0
          rise := 0
          x := 0
          y := 0
          transform_matrix := ID_MATRIX }
      cur_tx := 0
      cur_ty := 0
      draw_tx := 0
      draw_ty := 0 }
  { reset_state_change R1 with all_changed := true }

/-! ## The state-change classifier -/

/-- The renderer together with the local variables of `check_state_change`. -/
structure CheckState extends HTMLRenderer where
  need_recheck_position : Bool
  need_rescale_font : Bool
  draw_text_scale_changed : Bool
  old_tm : TM

/-- Lines 138-142: the verdict starts at `NLS_NONE` and the locals at `false`; `old_tm` is
declared later (line 181) and holds no meaningful value until its assignment at line 182. -/
def check_begin (R : HTMLRenderer) : CheckState :=
  { toHTMLRenderer := { R with new_line_state := .NLS_NONE }
    need_recheck_position := false
    need_rescale_font := false
    draw_text_scale_changed := false
    old_tm := ⟨0, 0, 0, 0, 0, 0⟩ }

/-- Lines 144-149: text position. -/
def check_text_pos (S : CheckState) : CheckState :=
  if S.all_changed || S.text_pos_changed then
    { S with need_recheck_position := true }
  else S

/-- Lines 151-178: font name and size. -/
def check_font (E : Env) (state : GfxState) (S : CheckState) : CheckState :=
  if S.all_changed || S.font_changed then
    let new_font_info := E.install_font state.Font
    let S1 : CheckState :=
      if !(new_font_info.id == S.cur_html_state.font_info.id) then
        { S with
          new_line_state :=
            if new_font_info.is_type3 || S.cur_html_state.font_info.is_type3 then
              max S.new_line_state .NLS_DIV
            else
              max S.new_line_state .NLS_SPAN
          cur_html_state := { S.cur_html_state with font_info := new_font_info } }
      else S
    let new_font_size := state.FontSize
    if !equal E S1.cur_font_size new_font_size then
      { S1 with need_rescale_font := true, cur_font_size := new_font_size }
    else S1
  else S

/-- Lines 193-198: the composed matrix `new_text_tm`. -/
def new_text_tm (m1 m2 : TM) (hori_scale : ℚ) : TM :=
  { e0 := (m1.e0 * m2.e0 + m1.e2 * m2.e1) * hori_scale
    e1 := (m1.e1 * m2.e0 + m1.e3 * m2.e1) * hori_scale
    e2 := m1.e0 * m2.e2 + m1.e2 * m2.e3
    e3 := m1.e1 * m2.e2 + m1.e3 * m2.e3
    e4 := m1.e0 * m2.e4 + m1.e2 * m2.e5 + m1.e4
    e5 := m1.e1 * m2.e4 + m1.e3 * m2.e5 + m1.e5 }

/-- The action of a matrix `[a, b, c, d, e, f]` on the point `(x, y)`, as a column vector
`(x, y, 1)^T`: the convention of the comment at lines 273-279, where the first coordinate uses
the entries 0, 2, 4 and the second the entries 1, 3, 5. -/
def tm_apply (t : TM) (x y : ℚ) : ℚ × ℚ :=
  (t.e0 * x + t.e2 * y + t.e4, t.e1 * x + t.e3 * y + t.e5)

/-- Lines 180-207: backup of the current matrix, then CTM, text matrix and horizontal scale. -/
def check_text_tm (E : Env) (state : GfxState) (S : CheckState) : CheckState :=
  let S0 : CheckState := { S with old_tm := S.cur_text_tm }
  if S0.all_changed || S0.ctm_changed || S0.text_mat_changed || S0.hori_scale_changed then
    let tm := new_text_tm state.CTM state.TextMat state.HorizScaling
    if !tm_equal E tm S0.cur_text_tm 6 then
      { S0 with need_recheck_position := true, need_rescale_font := true, cur_text_tm := tm }
    else S0
  else S0

/-- The locals of the rescaling block (lines 219-245). -/
structure DrawScale where
  new_draw_text_scale : ℚ
  new_draw_font_size : ℚ
  new_draw_text_tm : TM
  divs : List (DivSite × ℚ)

/-- Lines 219-236: pull the scale of the matrix into the font size. -/
def pull_scale (E : Env) (text_scale_factor2 cur_font_size : ℚ) (cur_text_tm : TM) :
    DrawScale :=
  let new_draw_text_tm := cur_text_tm
  let new_draw_text_scale :=
    1 / text_scale_factor2 * E.hypot new_draw_text_tm.e2 new_draw_text_tm.e3
  let new_draw_font_size := cur_font_size
  if is_positive E new_draw_text_scale then
    { new_draw_text_scale := new_draw_text_scale
      new_draw_font_size := new_draw_font_size * new_draw_text_scale
      new_draw_text_tm := new_draw_text_tm.map4 (fun v => v / new_draw_text_scale)
      divs := [(.by_text_scale_factor2, text_scale_factor2),
               (.by_new_draw_text_scale, new_draw_text_scale)] }
  else
    { new_draw_text_scale := 1
      new_draw_font_size := new_draw_font_size
      new_draw_text_tm := new_draw_text_tm
      divs := [(.by_text_scale_factor2, text_scale_factor2)] }

/-- Lines 238-245: a font size that is not positive is negated together with the matrix. -/
def undo_flip (E : Env) (D : DrawScale) : DrawScale :=
  if !is_positive E D.new_draw_font_size then
    { D with
      new_draw_font_size := D.new_draw_font_size * -1
      new_draw_text_tm := D.new_draw_text_tm.map4 (fun v => v * -1) }
  else D

/-- Lines 219-245: the rescaled font size, matrix and scale. -/
def factor_draw_scale (E : Env) (text_scale_factor2 cur_font_size : ℚ) (cur_text_tm : TM) :
    DrawScale :=
  undo_flip E (pull_scale E text_scale_factor2 cur_font_size cur_text_tm)

/-- Lines 247-251: store a changed draw_text_scale. -/
def store_draw_text_scale (E : Env) (D : DrawScale) (S : CheckState) : CheckState :=
  if !equal E D.new_draw_text_scale S.draw_text_scale then
    { S with draw_text_scale_changed := true, draw_text_scale := D.new_draw_text_scale }
  else S

/-- Lines 253-257: store a changed CSS font size. -/
def store_font_size (E : Env) (D : DrawScale) (S : CheckState) : CheckState :=
  if !equal E D.new_draw_font_size S.cur_html_state.font_size then
    { S with
      new_line_state := max S.new_line_state .NLS_SPAN
      cur_html_state := { S.cur_html_state with font_size := D.new_draw_font_size } }
  else S

/-- Lines 259-263: store a changed residual matrix. -/
def store_transform_matrix (E : Env) (D : DrawScale) (S : CheckState) : CheckState :=
  if !tm_equal E D.new_draw_text_tm S.cur_html_state.transform_matrix 4 then
    { S with
      new_line_state := max S.new_line_state .NLS_DIV
      cur_html_state := { S.cur_html_state with transform_matrix := D.new_draw_text_tm } }
  else S

/-- Lines 209-264: draw_text_tm and draw_text_scale. -/
def check_rescale_font (E : Env) (S : CheckState) : CheckState :=
  if S.need_rescale_font then
    let D := factor_draw_scale E S.text_scale_factor2 S.cur_font_size S.cur_text_tm
    let S1 : CheckState := { S with div_log := S.div_log ++ D.divs }
    store_transform_matrix E D (store_font_size E D (store_draw_text_scale E D S1))
  else S

/-- The locals `merged` and `dx` of the position block. -/
structure Merge where
  merged : Bool
  dx : ℚ
  divs : List (DivSite × ℚ)

/-- Line 292. -/
def merge_lhs1 (old_tm cur_text_tm : TM) (draw_tx draw_ty cur_tx cur_ty : ℚ) : ℚ :=
  cur_text_tm.e4 - old_tm.e4 - old_tm.e2 * (draw_ty - cur_ty) - old_tm.e0 * (draw_tx - cur_tx)

/-- Line 293. -/
def merge_lhs2 (old_tm cur_text_tm : TM) (draw_tx draw_ty cur_tx cur_ty : ℚ) : ℚ :=
  cur_text_tm.e5 - old_tm.e5 - old_tm.e3 * (draw_ty - cur_ty) - old_tm.e1 * (draw_tx - cur_tx)

/-- Lines 288-320: try to express the move as one horizontal offset under the old matrix. -/
def merge_position (E : Env) (old_tm cur_text_tm : TM) (draw_tx draw_ty cur_tx cur_ty : ℚ) :
    Merge :=
  if tm_equal E old_tm cur_text_tm 4 then
    let lhs1 := merge_lhs1 old_tm cur_text_tm draw_tx draw_ty cur_tx cur_ty
    let lhs2 := merge_lhs2 old_tm cur_text_tm draw_tx draw_ty cur_tx cur_ty
    if equal E (old_tm.e0 * lhs2) (old_tm.e1 * lhs1) then
      if !equal E old_tm.e0 0 then
        { merged := true, dx := lhs1 / old_tm.e0, divs := [(.by_old_tm0, old_tm.e0)] }
      else if !equal E old_tm.e1 0 then
        { merged := true, dx := lhs2 / old_tm.e1, divs := [(.by_old_tm1, old_tm.e1)] }
      else if equal E lhs1 0 && equal E lhs2 0 then
        { merged := true, dx := 0, divs := [] }
      else
        { merged := false, dx := 0, divs := [] }
    else
      { merged := false, dx := 0, divs := [] }
  else
    { merged := false, dx := 0, divs := [] }

/-- Lines 266-332: is the new position compatible with the current line? -/
def check_position (E : Env) (S : CheckState) : CheckState :=
  if S.need_recheck_position && decide (S.new_line_state < .NLS_DIV) then
    let M := merge_position E S.old_tm S.cur_text_tm S.draw_tx S.draw_ty S.cur_tx S.cur_ty
    let S1 : CheckState := { S with div_log := S.div_log ++ M.divs }
    if M.merged then
      { S1 with
        text_line_buf := S1.text_line_buf ++ [.append_offset (M.dx * S1.draw_text_scale)]
        draw_tx := S1.cur_tx
        draw_ty := S1.cur_ty }
    else
      { S1 with new_line_state := max S1.new_line_state .NLS_DIV }
  else S

/-- Lines 334-344: letter space. -/
def check_letter_space (E : Env) (state : GfxState) (S : CheckState) : CheckState :=
  if S.all_changed || S.letter_space_changed || S.draw_text_scale_changed then
    let new_letter_space := state.CharSpace * S.draw_text_scale
    if !equal E new_letter_space S.cur_html_state.letter_space then
      { S with
        cur_html_state := { S.cur_html_state with letter_space := new_letter_space }
        new_line_state := max S.new_line_state .NLS_SPAN }
    else S
  else S

/-- Lines 346-356: word space. -/
def check_word_space (E : Env) (state : GfxState) (S : CheckState) : CheckState :=
  if S.all_changed || S.word_space_changed || S.draw_text_scale_changed then
    let new_word_space := state.WordSpace * S.draw_text_scale
    if !equal E new_word_space S.cur_html_state.word_space then
      { S with
        cur_html_state := { S.cur_html_state with word_space := new_word_space }
        new_line_state := max S.new_line_state .NLS_SPAN }
    else S
  else S

/-- Line 362: the table `FILL` of the text rendering modes. -/
def FILL : List Bool := [true, false, true, false, true, false, true, false]

/-- Line 387: the table `STROKE` of the text rendering modes. -/
def STROKE : List Bool := [false, true, true, false, false, true, true, false]

/-- The statement `assert(c)`. -/
def assert (c : Bool) : Option Unit :=
  if c then some () else none

/-- A read `table[idx]` of a `char[8]` table with an `int` index. -/
def table_at (table : List Bool) (idx : Int) : Option Bool :=
  if 0 ≤ idx then table.get? idx.toNat else none

/-- Lines 366-375 and 391-401: the colour of a channel; when the channel is inactive only the
transparency flag of the fresh `Color` is assigned, and its `rgb` is taken to be zero. -/
def channel_color (active : Bool) (rgb : GfxRGB) : Color :=
  if active then { transparent := false, rgb := rgb }
  else { transparent := true, rgb := ⟨0, 0, 0⟩ }

/-- Lines 376-380: store a changed fill colour. -/
def store_fill_color (E : Env) (new_fill_color : Color) (S : CheckState) : CheckState :=
  if !Color.eq E new_fill_color S.cur_html_state.fill_color then
    { S with
      cur_html_state := { S.cur_html_state with fill_color := new_fill_color }
      new_line_state := max S.new_line_state .NLS_SPAN }
  else S

/-- Lines 358-381: fill colour. -/
def check_fill_color (E : Env) (state : GfxState) (S : CheckState) : Option CheckState :=
  if !S.param.fallback && (S.all_changed || S.fill_color_changed) then
    let idx := state.Render
    (assert (decide (idx ≥ 0) && decide (idx < 8))).bind fun _ =>
      (table_at FILL idx).bind fun active =>
        some (store_fill_color E (channel_color active state.FillRGB) S)
  else some S

/-- Lines 402-406: store a changed stroke colour. -/
def store_stroke_color (E : Env) (new_stroke_color : Color) (S : CheckState) : CheckState :=
  if !Color.eq E new_stroke_color S.cur_html_state.stroke_color then
    { S with
      cur_html_state := { S.cur_html_state with stroke_color := new_stroke_color }
      new_line_state := max S.new_line_state .NLS_SPAN }
  else S

/-- Lines 383-407: stroke colour. -/
def check_stroke_color (E : Env) (state : GfxState) (S : CheckState) : Option CheckState :=
  if !S.param.fallback && (S.all_changed || S.stroke_color_changed) then
    let idx := state.Render
    (assert (decide (idx ≥ 0) && decide (idx < 8))).bind fun _ =>
      (table_at STROKE idx).bind fun active =>
        some (store_stroke_color E (channel_color active state.StrokeRGB) S)
  else some S

/-- Lines 409-419: rise. -/
def check_rise (E : Env) (state : GfxState) (S : CheckState) : CheckState :=
  if S.all_changed || S.rise_changed || S.draw_text_scale_changed then
    let new_rise := state.Rise * S.draw_text_scale
    if !equal E new_rise S.cur_html_state.rise then
      { S with
        cur_html_state := { S.cur_html_state with rise := new_rise }
        new_line_state := max S.new_line_state .NLS_SPAN }
    else S
  else S

/-- The method `HTMLRenderer::check_state_change` (lines 133-422). -/
def check_state_change (E : Env) (state : GfxState) (R : HTMLRenderer) : Option HTMLRenderer := do
  let S0 := check_begin R
  let S1 := check_text_pos S0
  let S2 := check_font E state S1
  let S3 := check_text_tm E state S2
  let S4 := check_rescale_font E S3
  let S5 := check_position E S4
  let S6 := check_letter_space E state S5
  let S7 := check_word_space E state S6
  let S8 ← check_fill_color E state S7
  let S9 ← check_stroke_color E state S8
  let S10 := check_rise E state S9
  pure (reset_state_change S10.toHTMLRenderer)

/-- A checking step: a block of `check_state_change`, which may trap on its `assert`. -/
abbrev CheckStep := CheckState → Option CheckState

/-- The blocks of `check_state_change` between its first lines and `reset_state_change`, in the
order of the source. -/
def check_steps (E : Env) (state : GfxState) : List CheckStep :=
  [ fun S => some (check_text_pos S),
    fun S => some (check_font E state S),
    fun S => some (check_text_tm E state S),
    fun S => some (check_rescale_font E S),
    fun S => some (check_position E S),
    fun S => some (check_letter_space E state S),
    fun S => some (check_word_space E state S),
    check_fill_color E state,
    check_stroke_color E state,
    fun S => some (check_rise E state S) ]

/-- Run checking steps one after the other. -/
def run_steps : List CheckStep → CheckState → Option CheckState
  | [], S => some S
  | f :: fs, S => (f S).bind (run_steps fs)

/-- The state of `check_state_change` after its first `n` checking steps. -/
def check_upto (n : Nat) (E : Env) (state : GfxState) (R : HTMLRenderer) : Option CheckState :=
  run_steps ((check_steps E state).take n) (check_begin R)

/-- The rendering mode respects the caller contract `0 <= idx < 8`. -/
def valid_render (state : GfxState) : Prop :=
  0 ≤ state.Render ∧ state.Render < 8

instance (state : GfxState) : Decidable (valid_render state) := by
  unfold valid_render
  infer_instance

/-! ## Line lifecycle -/

def close_text_line (R : HTMLRenderer) : HTMLRenderer :=
  if R.line_opened then
    { R with line_opened := false, text_line_buf := R.text_line_buf ++ [.flush] }
  else R

def prepare_text_line (E : Env) (state : GfxState) (R : HTMLRenderer) : HTMLRenderer :=
  let R1 : HTMLRenderer :=
    if !R.line_opened then { R with new_line_state := .NLS_DIV } else R
  let R2 : HTMLRenderer :=
    if R1.new_line_state = .NLS_DIV then
      let R3 := close_text_line R1
      let p := state.transform state.CurX state.CurY
      { R3 with
        cur_html_state := { R3.cur_html_state with x := p.1, y := p.2 }
        draw_ty := R3.cur_ty
        draw_tx := R3.cur_tx }
    else
      let target := (R1.cur_tx - R1.draw_tx) * R1.draw_text_scale
      if !equal E target 0 then
        { R1 with
          text_line_buf := R1.text_line_buf ++ [.append_offset target]
          draw_tx := R1.draw_tx + target / R1.draw_text_scale
          div_log := R1.div_log ++ [(.by_draw_text_scale, R1.draw_text_scale)] }
      else R1
  let R4 : HTMLRenderer :=
    if R2.new_line_state ≠ .NLS_NONE then
      { R2 with text_line_buf := R2.text_line_buf ++ [.append_state R2.cur_html_state] }
    else R2
  { R4 with line_opened := true }

/-! ## Reachable renderer states -/

/-- The renderer states that `state.cc` can produce: `reset_state` from any state, followed by
any sequence of update callbacks, classifications and line operations. -/
inductive Reachable (E : Env) : HTMLRenderer → Prop where
  | reset (R : HTMLRenderer) : Reachable E (reset_state E R)
  | all (g : GfxState) (R : HTMLRenderer) : Reachable E R → Reachable E (updateAll g R)
  | rise (g : GfxState) (R : HTMLRenderer) : Reachable E R → Reachable E (updateRise g R)
  | text_pos (g : GfxState) (R : HTMLRenderer) :
      Reachable E R → Reachable E (updateTextPos g R)
  | text_shift (g : GfxState) (shift : ℚ) (R : HTMLRenderer) :
      Reachable E R → Reachable E (updateTextShift g shift R)
  | font (g : GfxState) (R : HTMLRenderer) : Reachable E R → Reachable E (updateFont g R)
  | ctm (g : GfxState) (m11 m12 m21 m22 m31 m32 : ℚ) (R : HTMLRenderer) :
      Reachable E R → Reachable E (updateCTM g m11 m12 m21 m22 m31 m32 R)
  | text_mat (g : GfxState) (R : HTMLRenderer) :
      Reachable E R → Reachable E (updateTextMat g R)
  | horiz_scaling (g : GfxState) (R : HTMLRenderer) :
      Reachable E R → Reachable E (updateHorizScaling g R)
  | char_space (g : GfxState) (R : HTMLRenderer) :
      Reachable E R → Reachable E (updateCharSpace g R)
  | word_space (g : GfxState) (R : HTMLRenderer) :
      Reachable E R → Reachable E (updateWordSpace g R)
  | render (g : GfxState) (R : HTMLRenderer) : Reachable E R → Reachable E (updateRender g R)
  | fill_color_space (g : GfxState) (R : HTMLRenderer) :
      Reachable E R → Reachable E (updateFillColorSpace g R)
  | stroke_color_space (g : GfxState) (R : HTMLRenderer) :
      Reachable E R → Reachable E (updateStrokeColorSpace g R)
  | fill_color (g : GfxState) (R : HTMLRenderer) :
      Reachable E R → Reachable E (updateFillColor g R)
  | stroke_color (g : GfxState) (R : HTMLRenderer) :
      Reachable E R → Reachable E (updateStrokeColor g R)
  | check (g : GfxState) (R R1 : HTMLRenderer) :
      Reachable E R → check_state_change E g R = some R1 → Reachable E R1
  | prepare (g : GfxState) (R : HTMLRenderer) :
      Reachable E R → Reachable E (prepare_text_line E g R)
  | close (R : HTMLRenderer) : Reachable E R → Reachable E (close_text_line R)

/-! ## Predicates used by the theorems -/

/-- The members that the blocks after the first `k` do not write: each member is kept from the
block that writes it last. -/
structure KeptFrom (k : Nat) (S S1 : CheckState) : Prop where
  font_info : 2 ≤ k → S1.cur_html_state.font_info = S.cur_html_state.font_info
  cur_font_size : 2 ≤ k → S1.cur_font_size = S.cur_font_size
  cur_text_tm : 3 ≤ k → S1.cur_text_tm = S.cur_text_tm
  draw_text_scale : 4 ≤ k → S1.draw_text_scale = S.draw_text_scale
  font_size : 4 ≤ k → S1.cur_html_state.font_size = S.cur_html_state.font_size
  transform_matrix :
    4 ≤ k → S1.cur_html_state.transform_matrix = S.cur_html_state.transform_matrix
  draw_text_scale_changed : 4 ≤ k → S1.draw_text_scale_changed = S.draw_text_scale_changed
  draw_tx : 5 ≤ k → S1.draw_tx = S.draw_tx
  draw_ty : 5 ≤ k → S1.draw_ty = S.draw_ty
  text_line_buf : 5 ≤ k → S1.text_line_buf = S.text_line_buf
  div_log : 5 ≤ k → S1.div_log = S.div_log
  letter_space : 6 ≤ k → S1.cur_html_state.letter_space = S.cur_html_state.letter_space
  word_space : 7 ≤ k → S1.cur_html_state.word_space = S.cur_html_state.word_space
  fill_color : 8 ≤ k → S1.cur_html_state.fill_color = S.cur_html_state.fill_color
  stroke_color : 9 ≤ k → S1.cur_html_state.stroke_color = S.cur_html_state.stroke_color
  x : S1.cur_html_state.x = S.cur_html_state.x
  y : S1.cur_html_state.y = S.cur_html_state.y

/-! ## Divisions -/

/-- The members that no checking step writes: configuration, dirty flags, `line_opened` and the
tracked text position `cur_tx`, `cur_ty`. -/
structure Frame (S S1 : HTMLRenderer) : Prop where
  param : S1.param = S.param
  text_scale_factor2 : S1.text_scale_factor2 = S.text_scale_factor2
  line_opened : S1.line_opened = S.line_opened
  all_changed : S1.all_changed = S.all_changed
  rise_changed : S1.rise_changed = S.rise_changed
  text_pos_changed : S1.text_pos_changed = S.text_pos_changed
  font_changed : S1.font_changed = S.font_changed
  ctm_changed : S1.ctm_changed = S.ctm_changed
  text_mat_changed : S1.text_mat_changed = S.text_mat_changed
  hori_scale_changed : S1.hori_scale_changed = S.hori_scale_changed
  letter_space_changed : S1.letter_space_changed = S.letter_space_changed
  word_space_changed : S1.word_space_changed = S.word_space_changed
  fill_color_changed : S1.fill_color_changed = S.fill_color_changed
  stroke_color_changed : S1.stroke_color_changed = S.stroke_color_changed
  cur_tx : S1.cur_tx = S.cur_tx
  cur_ty : S1.cur_ty = S.cur_ty

/-- The condition under which the position block merges a horizontal move by `d` under an
unchanged matrix `tm`: entry [0] or entry [1] is not epsilon-zero, or both residuals `tm[0]*d`
and `tm[1]*d` are epsilon-zero. -/
def horizontal_merge_ok (E : Env) (tm : TM) (d : ℚ) : Bool :=
  !equal E tm.e0 0 || !equal E tm.e1 0 || (equal E (tm.e0 * d) 0 && equal E (tm.e1 * d) 0)

/-! ## Concrete inputs -/

/-- An environment with tolerance 1/1000, a font installer that gives the font object `n` the
id `n` and makes the odd ones type-3, a `hypot` that is the Euclidean length whenever one of
its arguments is zero (the only case in which the inputs below use it), and the bare reading
`s > 0` of `is_positive`. -/
def demo_env : Env :=
  { EPS := 1 / 1000
    hypot := fun x y => max (abs x) (abs y)
    install_font := fun f =>
      match f with
      | none => ⟨-1, false⟩
      | some n => ⟨n, n % 2 == 1⟩
    positive := fun x => decide (0 < x)
    positive_pos := fun _ h => of_decide_eq_true h }

/-- The same environment with the epsilon-aware reading of `is_positive`: a value is accepted
when it exceeds the tolerance 1/1000. -/
def demo_env_eps : Env :=
  { EPS := 1 / 1000
    hypot := fun x y => max (abs x) (abs y)
    install_font := fun f =>
      match f with
      | none => ⟨-1, false⟩
      | some n => ⟨n, n % 2 == 1⟩
    positive := fun x => decide (1 / 1000 < x)
    positive_pos := fun _ h => lt_trans (by norm_num) (of_decide_eq_true h) }

/-- A graphics state with identity matrices, font object 2 at size 10, fill mode. -/
def demo_gfx : GfxState :=
  { LineX := 0
    LineY := 0
    CurX := 0
    CurY := 0
    Font := some 2
    FontSize := 10
    HorizScaling := 1
    CTM := ID_MATRIX
    TextMat := ID_MATRIX
    CharSpace := 0
    WordSpace := 0
    Rise := 0
    Render := 0
    FillRGB := ⟨0, 0, 0⟩
    StrokeRGB := ⟨0, 0, 0⟩
    transform := fun x y => (x, y) }

/-- A renderer in the middle of a line drawn with `demo_gfx`: nothing is dirty. -/
def demo_renderer : HTMLRenderer :=
  { param := ⟨false⟩
    text_scale_factor2 := 1
    line_opened := true
    new_line_state := .NLS_NONE
    all_changed := false
    rise_changed := false
    text_pos_changed := false
    font_changed := false
    ctm_changed := false
    text_mat_changed := false
    hori_scale_changed := false
    letter_space_changed := false
    word_space_changed := false
    fill_color_changed := false
    stroke_color_changed := false
    cur_tx := 0
    cur_ty := 0
    draw_tx := 0
    draw_ty := 0
    cur_font_size := 10
    cur_text_tm := ID_MATRIX
    draw_text_scale := 1
    cur_html_state :=
      { font_info := ⟨2, false⟩
        font_size := 10
        fill_color := ⟨false, ⟨0, 0, 0⟩⟩
        stroke_color := ⟨true, ⟨0, 0, 0⟩⟩
        letter_space := 0
        word_space := 0
        rise := 0
        x := 0
        y := 0
        transform_matrix := ID_MATRIX }
    text_line_buf := []
    div_log := [] }

/-- The renderer of `demo_renderer` under a matrix whose first column is zero (horizontal
scaling 0), with only the text-position flag dirty and the position unchanged. -/
def flat_renderer : HTMLRenderer :=
  { demo_renderer with
    text_pos_changed := true
    cur_text_tm := ⟨0, 0, 0, 1, 0, 0⟩
    cur_html_state :=
      { demo_renderer.cur_html_state with transform_matrix := ⟨0, 0, 0, 1, 0, 0⟩ } }

/-! ## Finite values of a run -/

theorem equal_self (E : Env) (hE : 0 < E.EPS) (x : ℚ) : equal E x x = true := by
  simp [equal, hE]

theorem equal_of_eq (E : Env) (hE : 0 < E.EPS) {x y : ℚ} (h : x = y) : equal E x y = true := by
  subst h
  exact equal_self E hE x

theorem ne_zero_of_not_equal (E : Env) (hE : 0 < E.EPS) {x : ℚ} (h : equal E x 0 = false) :
    x ≠ 0 := by
  intro hx
  rw [hx, equal_self E hE] at h
  exact Bool.noConfusion h

theorem tm_equal_four (E : Env) (a b : TM) :
    tm_equal E a b 4 =
      (equal E a.e0 b.e0 && (equal E a.e1 b.e1 && (equal E a.e2 b.e2 && equal E a.e3 b.e3))) := by
  simp [tm_equal, List.range_succ, TM.get, Bool.and_assoc]

theorem tm_equal_six (E : Env) (a b : TM) :
    tm_equal E a b 6 =
      (equal E a.e0 b.e0 && (equal E a.e1 b.e1 && (equal E a.e2 b.e2 && (equal E a.e3 b.e3 &&
        (equal E a.e4 b.e4 && equal E a.e5 b.e5))))) := by
  simp [tm_equal, List.range_succ, TM.get, Bool.and_assoc]

theorem tm_equal_self (E : Env) (hE : 0 < E.EPS) (a : TM) (n : Nat) : tm_equal E a a n = true := by
  simp [tm_equal, equal_self E hE]

theorem nls_le_DIV (a : NewLineState) : a ≤ NewLineState.NLS_DIV := by
  cases a <;> decide

theorem nls_NONE_le (a : NewLineState) : NewLineState.NLS_NONE ≤ a := by
  cases a <;> decide

theorem nls_max_DIV (a : NewLineState) : max a NewLineState.NLS_DIV = NewLineState.NLS_DIV :=
  max_eq_right (nls_le_DIV a)

theorem nls_eq_DIV_of_le {a : NewLineState} (h : NewLineState.NLS_DIV ≤ a) :
    a = NewLineState.NLS_DIV :=
  le_antisymm (nls_le_DIV a) h

/-! ## Composition of the checking steps -/

theorem run_steps_append (l1 l2 : List CheckStep) (S : CheckState) :
    run_steps (l1 ++ l2) S = (run_steps l1 S).bind (run_steps l2) := by
  induction l1 generalizing S with
  | nil => simp [run_steps]
  | cons f fs ih =>
    simp only [List.cons_append, run_steps]
    cases f S with
    | none => rfl
    | some S1 => simpa using ih S1

/-- A reflexive and transitive relation respected by every step is respected by a run. -/
theorem run_steps_rel (Rel : CheckState → CheckState → Prop) (hrefl : ∀ S, Rel S S)
    (htrans : ∀ a b c, Rel a b → Rel b c → Rel a c) (l : List CheckStep)
    (hstep : ∀ f ∈ l, ∀ S S1, f S = some S1 → Rel S S1) (S S1 : CheckState)
    (hrun : run_steps l S = some S1) : Rel S S1 := by
  induction l generalizing S with
  | nil =>
    simp only [run_steps, Option.some.injEq] at hrun
    subst hrun
    exact hrefl S
  | cons f fs ih =>
    simp only [run_steps] at hrun
    cases hf : f S with
    | none => simp [hf] at hrun
    | some S2 =>
      rw [hf] at hrun
      exact htrans _ _ _ (hstep f (List.mem_cons_self f fs) S S2 hf)
        (ih (fun f1 h1 => hstep f1 (List.mem_cons_of_mem f h1)) S2 hrun)

/-- A run of total steps returns. -/
theorem run_steps_total (l : List CheckStep) (htotal : ∀ f ∈ l, ∀ S, ∃ S1, f S = some S1)
    (S : CheckState) : ∃ S1, run_steps l S = some S1 := by
  induction l generalizing S with
  | nil => exact ⟨S, rfl⟩
  | cons f fs ih =>
    obtain ⟨S2, h2⟩ := htotal f (List.mem_cons_self f fs) S
    obtain ⟨S3, h3⟩ := ih (fun f1 h1 => htotal f1 (List.mem_cons_of_mem f h1)) S2
    exact ⟨S3, by simp [run_steps, h2, h3]⟩

theorem check_state_change_eq_run (E : Env) (state : GfxState) (R : HTMLRenderer) :
    check_state_change E state R =
      (run_steps (check_steps E state) (check_begin R)).map
        (fun S => reset_state_change S.toHTMLRenderer) := by
  simp only [check_state_change, check_steps, run_steps, Option.bind_eq_bind, Option.some_bind,
    bind, pure]
  cases check_fill_color E state _ with
  | none => rfl
  | some S8 =>
    simp only [Option.some_bind, Option.bind]
    cases check_stroke_color E state S8 <;> rfl

/-! ## The colour steps -/

theorem table_at_valid (table : List Bool) (htable : table.length = 8) (state : GfxState)
    (hr : valid_render state) :
    table_at table state.Render = some (table.getD state.Render.toNat false) := by
  obtain ⟨h0, h8⟩ := hr
  have hlt : state.Render.toNat < table.length := by omega
  simp [table_at, h0, List.getD, List.getElem?_eq_getElem hlt]

theorem check_fill_color_valid (E : Env) (state : GfxState) (S : CheckState)
    (hr : valid_render state) :
    check_fill_color E state S =
      some (if !S.param.fallback && (S.all_changed || S.fill_color_changed) then
        store_fill_color E (channel_color (FILL.getD state.Render.toNat false) state.FillRGB) S
      else S) := by
  unfold check_fill_color
  split_ifs with h
  · have h1 := hr.1
    have h2 := hr.2
    simp [assert, h1, h2, table_at_valid FILL rfl state hr]
  · rfl

theorem check_stroke_color_valid (E : Env) (state : GfxState) (S : CheckState)
    (hr : valid_render state) :
    check_stroke_color E state S =
      some (if !S.param.fallback && (S.all_changed || S.stroke_color_changed) then
        store_stroke_color E
          (channel_color (STROKE.getD state.Render.toNat false) state.StrokeRGB) S
      else S) := by
  unfold check_stroke_color
  split_ifs with h
  · have h1 := hr.1
    have h2 := hr.2
    simp [assert, h1, h2, table_at_valid STROKE rfl state hr]
  · rfl

theorem check_fill_color_cases (E : Env) (state : GfxState) (S S1 : CheckState)
    (h : check_fill_color E state S = some S1) :
    S1 = S ∨ ∃ c : Color, S1 = store_fill_color E c S := by
  unfold check_fill_color at h
  split_ifs at h with h1
  · simp only [Option.bind_eq_some] at h
    obtain ⟨_, _, active, _, h3⟩ := h
    right
    exact ⟨_, (Option.some.inj h3).symm⟩
  · left
    exact (Option.some.inj h).symm

theorem check_stroke_color_cases (E : Env) (state : GfxState) (S S1 : CheckState)
    (h : check_stroke_color E state S = some S1) :
    S1 = S ∨ ∃ c : Color, S1 = store_stroke_color E c S := by
  unfold check_stroke_color at h
  split_ifs at h with h1
  · simp only [Option.bind_eq_some] at h
    obtain ⟨_, _, active, _, h3⟩ := h
    right
    exact ⟨_, (Option.some.inj h3).symm⟩
  · left
    exact (Option.some.inj h).symm

theorem check_fill_color_skip (E : Env) (state : GfxState) (S : CheckState)
    (h : (!S.param.fallback && (S.all_changed || S.fill_color_changed)) = false) :
    check_fill_color E state S = some S := by
  simp [check_fill_color, h]

theorem check_stroke_color_skip (E : Env) (state : GfxState) (S : CheckState)
    (h : (!S.param.fallback && (S.all_changed || S.stroke_color_changed)) = false) :
    check_stroke_color E state S = some S := by
  simp [check_stroke_color, h]

/-- Every checking step satisfies a relation as soon as each block does (the colour blocks
through their store). -/
theorem check_steps_rel (E : Env) (state : GfxState) (Rel : CheckState → CheckState → Prop)
    (hrefl : ∀ S, Rel S S)
    (h1 : ∀ S, Rel S (check_text_pos S))
    (h2 : ∀ S, Rel S (check_font E state S))
    (h3 : ∀ S, Rel S (check_text_tm E state S))
    (h4 : ∀ S, Rel S (check_rescale_font E S))
    (h5 : ∀ S, Rel S (check_position E S))
    (h6 : ∀ S, Rel S (check_letter_space E state S))
    (h7 : ∀ S, Rel S (check_word_space E state S))
    (h8 : ∀ c S, Rel S (store_fill_color E c S))
    (h9 : ∀ c S, Rel S (store_stroke_color E c S))
    (h10 : ∀ S, Rel S (check_rise E state S)) :
    ∀ f ∈ check_steps E state, ∀ S S1, f S = some S1 → Rel S S1 := by
  intro f hf S S1 h
  simp only [check_steps, List.mem_cons, List.mem_singleton, List.not_mem_nil, or_false] at hf
  rcases hf with rfl | rfl | rfl | rfl | rfl | rfl | rfl | rfl | rfl | rfl
  · cases Option.some.inj h; exact h1 S
  · cases Option.some.inj h; exact h2 S
  · cases Option.some.inj h; exact h3 S
  · cases Option.some.inj h; exact h4 S
  · cases Option.some.inj h; exact h5 S
  · cases Option.some.inj h; exact h6 S
  · cases Option.some.inj h; exact h7 S
  · rcases check_fill_color_cases E state S S1 h with rfl | ⟨c, rfl⟩
    · exact hrefl _
    · exact h8 c S
  · rcases check_stroke_color_cases E state S S1 h with rfl | ⟨c, rfl⟩
    · exact hrefl _
    · exact h9 c S
  · cases Option.some.inj h; exact h10 S

/-- A relation respected by every block is respected by every run of a part of the steps. -/
theorem run_part_rel (E : Env) (state : GfxState) (Rel : CheckState → CheckState → Prop)
    (hrefl : ∀ S, Rel S S) (htrans : ∀ a b c, Rel a b → Rel b c → Rel a c)
    (hstep : ∀ f ∈ check_steps E state, ∀ S S1, f S = some S1 → Rel S S1)
    (l : List CheckStep) (hl : ∀ f ∈ l, f ∈ check_steps E state) (S S1 : CheckState)
    (hrun : run_steps l S = some S1) : Rel S S1 :=
  run_steps_rel Rel hrefl htrans l (fun f hf => hstep f (hl f hf)) S S1 hrun

/-! ## What the checking steps leave alone -/

theorem Frame.frame_refl (S : HTMLRenderer) : Frame S S := by
  constructor <;> rfl

theorem Frame.frame_trans {a b c : HTMLRenderer} (h1 : Frame a b) (h2 : Frame b c) : Frame a c := by
  constructor
  · exact h2.param.trans h1.param
  · exact h2.text_scale_factor2.trans h1.text_scale_factor2
  · exact h2.line_opened.trans h1.line_opened
  · exact h2.all_changed.trans h1.all_changed
  · exact h2.rise_changed.trans h1.rise_changed
  · exact h2.text_pos_changed.trans h1.text_pos_changed
  · exact h2.font_changed.trans h1.font_changed
  · exact h2.ctm_changed.trans h1.ctm_changed
  · exact h2.text_mat_changed.trans h1.text_mat_changed
  · exact h2.hori_scale_changed.trans h1.hori_scale_changed
  · exact h2.letter_space_changed.trans h1.letter_space_changed
  · exact h2.word_space_changed.trans h1.word_space_changed
  · exact h2.fill_color_changed.trans h1.fill_color_changed
  · exact h2.stroke_color_changed.trans h1.stroke_color_changed
  · exact h2.cur_tx.trans h1.cur_tx
  · exact h2.cur_ty.trans h1.cur_ty

theorem check_text_pos_frame (S : CheckState) :
    Frame S.toHTMLRenderer (check_text_pos S).toHTMLRenderer := by
  unfold check_text_pos
  split_ifs <;> constructor <;> rfl

theorem check_font_frame (E : Env) (state : GfxState) (S : CheckState) :
    Frame S.toHTMLRenderer (check_font E state S).toHTMLRenderer := by
  unfold check_font
  dsimp only
  split_ifs <;> constructor <;> rfl

theorem check_text_tm_frame (E : Env) (state : GfxState) (S : CheckState) :
    Frame S.toHTMLRenderer (check_text_tm E state S).toHTMLRenderer := by
  unfold check_text_tm
  dsimp only
  split_ifs <;> constructor <;> rfl

theorem check_rescale_font_frame (E : Env) (S : CheckState) :
    Frame S.toHTMLRenderer (check_rescale_font E S).toHTMLRenderer := by
  unfold check_rescale_font store_transform_matrix store_font_size store_draw_text_scale
  dsimp only
  split_ifs <;> constructor <;> rfl

theorem check_position_frame (E : Env) (S : CheckState) :
    Frame S.toHTMLRenderer (check_position E S).toHTMLRenderer := by
  unfold check_position
  dsimp only
  split_ifs <;> constructor <;> rfl

theorem check_letter_space_frame (E : Env) (state : GfxState) (S : CheckState) :
    Frame S.toHTMLRenderer (check_letter_space E state S).toHTMLRenderer := by
  unfold check_letter_space
  dsimp only
  split_ifs <;> constructor <;> rfl

theorem check_word_space_frame (E : Env) (state : GfxState) (S : CheckState) :
    Frame S.toHTMLRenderer (check_word_space E state S).toHTMLRenderer := by
  unfold check_word_space
  dsimp only
  split_ifs <;> constructor <;> rfl

theorem store_fill_color_frame (E : Env) (c : Color) (S : CheckState) :
    Frame S.toHTMLRenderer (store_fill_color E c S).toHTMLRenderer := by
  unfold store_fill_color
  split_ifs <;> constructor <;> rfl

theorem store_stroke_color_frame (E : Env) (c : Color) (S : CheckState) :
    Frame S.toHTMLRenderer (store_stroke_color E c S).toHTMLRenderer := by
  unfold store_stroke_color
  split_ifs <;> constructor <;> rfl

theorem check_rise_frame (E : Env) (state : GfxState) (S : CheckState) :
    Frame S.toHTMLRenderer (check_rise E state S).toHTMLRenderer := by
  unfold check_rise
  dsimp only
  split_ifs <;> constructor <;> rfl

theorem check_steps_frame (E : Env) (state : GfxState) :
    ∀ f ∈ check_steps E state, ∀ S S1, f S = some S1 →
      Frame S.toHTMLRenderer S1.toHTMLRenderer :=
  check_steps_rel E state (fun S S1 => Frame S.toHTMLRenderer S1.toHTMLRenderer)
    (fun _ => Frame.frame_refl _) check_text_pos_frame (check_font_frame E state)
    (check_text_tm_frame E state) (check_rescale_font_frame E) (check_position_frame E)
    (check_letter_space_frame E state) (check_word_space_frame E state)
    (store_fill_color_frame E) (store_stroke_color_frame E) (check_rise_frame E state)

theorem run_part_frame (E : Env) (state : GfxState) (l : List CheckStep)
    (hl : ∀ f ∈ l, f ∈ check_steps E state) (S S1 : CheckState)
    (hrun : run_steps l S = some S1) : Frame S.toHTMLRenderer S1.toHTMLRenderer :=
  run_part_rel E state (fun S S1 => Frame S.toHTMLRenderer S1.toHTMLRenderer)
    (fun _ => Frame.frame_refl _) (fun _ _ _ => Frame.frame_trans) (check_steps_frame E state) l hl S S1 hrun

/-! ## Totality of the steps -/

theorem check_steps_total (E : Env) (state : GfxState) (hr : valid_render state) :
    ∀ f ∈ check_steps E state, ∀ S, ∃ S1, f S = some S1 := by
  intro f hf S
  simp only [check_steps, List.mem_cons, List.mem_singleton, List.not_mem_nil, or_false] at hf
  rcases hf with rfl | rfl | rfl | rfl | rfl | rfl | rfl | rfl | rfl | rfl
  · exact ⟨_, rfl⟩
  · exact ⟨_, rfl⟩
  · exact ⟨_, rfl⟩
  · exact ⟨_, rfl⟩
  · exact ⟨_, rfl⟩
  · exact ⟨_, rfl⟩
  · exact ⟨_, rfl⟩
  · exact ⟨_, check_fill_color_valid E state S hr⟩
  · exact ⟨_, check_stroke_color_valid E state S hr⟩
  · exact ⟨_, rfl⟩

theorem check_upto_total (E : Env) (state : GfxState) (hr : valid_render state) (n : Nat)
    (R : HTMLRenderer) : ∃ S, check_upto n E state R = some S :=
  run_steps_total _ (fun f hf => check_steps_total E state hr f (List.mem_of_mem_take hf)) _

theorem check_state_change_eq_upto (E : Env) (state : GfxState) (R : HTMLRenderer) :
    check_state_change E state R =
      (check_upto 10 E state R).map (fun S => reset_state_change S.toHTMLRenderer) := by
  rw [check_state_change_eq_run]
  rfl

theorem check_state_change_total (E : Env) (state : GfxState) (hr : valid_render state)
    (R : HTMLRenderer) : ∃ R1, check_state_change E state R = some R1 := by
  obtain ⟨S, hS⟩ := check_upto_total E state hr 10 R
  exact ⟨_, by rw [check_state_change_eq_upto, hS]; rfl⟩

/-! ## The verdict never decreases -/

theorem check_text_pos_nls (S : CheckState) :
    (check_text_pos S).new_line_state = S.new_line_state := by
  unfold check_text_pos
  split_ifs <;> rfl

theorem check_font_mono (E : Env) (state : GfxState) (S : CheckState) :
    S.new_line_state ≤ (check_font E state S).new_line_state := by
  unfold check_font
  dsimp only
  split_ifs <;> simp [le_max_left]

theorem check_text_tm_nls (E : Env) (state : GfxState) (S : CheckState) :
    (check_text_tm E state S).new_line_state = S.new_line_state := by
  unfold check_text_tm
  dsimp only
  split_ifs <;> rfl

theorem store_draw_text_scale_nls (E : Env) (D : DrawScale) (S : CheckState) :
    (store_draw_text_scale E D S).new_line_state = S.new_line_state := by
  unfold store_draw_text_scale
  split_ifs <;> rfl

theorem store_font_size_mono (E : Env) (D : DrawScale) (S : CheckState) :
    S.new_line_state ≤ (store_font_size E D S).new_line_state := by
  unfold store_font_size
  split_ifs <;> simp [le_max_left]

theorem store_transform_matrix_mono (E : Env) (D : DrawScale) (S : CheckState) :
    S.new_line_state ≤ (store_transform_matrix E D S).new_line_state := by
  unfold store_transform_matrix
  split_ifs <;> simp [le_max_left]

theorem check_rescale_font_mono (E : Env) (S : CheckState) :
    S.new_line_state ≤ (check_rescale_font E S).new_line_state := by
  unfold check_rescale_font
  split_ifs
  · dsimp only
    refine le_trans ?_ (store_transform_matrix_mono E _ _)
    refine le_trans ?_ (store_font_size_mono E _ _)
    rw [store_draw_text_scale_nls]
  · exact le_refl _

theorem check_position_mono (E : Env) (S : CheckState) :
    S.new_line_state ≤ (check_position E S).new_line_state := by
  unfold check_position
  dsimp only
  split_ifs <;> simp [le_max_left]

theorem check_letter_space_mono (E : Env) (state : GfxState) (S : CheckState) :
    S.new_line_state ≤ (check_letter_space E state S).new_line_state := by
  unfold check_letter_space
  dsimp only
  split_ifs <;> simp [le_max_left]

theorem check_word_space_mono (E : Env) (state : GfxState) (S : CheckState) :
    S.new_line_state ≤ (check_word_space E state S).new_line_state := by
  unfold check_word_space
  dsimp only
  split_ifs <;> simp [le_max_left]

theorem store_fill_color_mono (E : Env) (c : Color) (S : CheckState) :
    S.new_line_state ≤ (store_fill_color E c S).new_line_state := by
  unfold store_fill_color
  split_ifs <;> simp [le_max_left]

theorem store_stroke_color_mono (E : Env) (c : Color) (S : CheckState) :
    S.new_line_state ≤ (store_stroke_color E c S).new_line_state := by
  unfold store_stroke_color
  split_ifs <;> simp [le_max_left]

theorem check_rise_mono (E : Env) (state : GfxState) (S : CheckState) :
    S.new_line_state ≤ (check_rise E state S).new_line_state := by
  unfold check_rise
  dsimp only
  split_ifs <;> simp [le_max_left]

theorem check_steps_mono (E : Env) (state : GfxState) :
    ∀ f ∈ check_steps E state, ∀ S S1, f S = some S1 →
      S.new_line_state ≤ S1.new_line_state :=
  check_steps_rel E state (fun S S1 => S.new_line_state ≤ S1.new_line_state)
    (fun _ => le_refl _) (fun S => (check_text_pos_nls S).ge) (check_font_mono E state)
    (fun S => (check_text_tm_nls E state S).ge) (check_rescale_font_mono E)
    (check_position_mono E) (check_letter_space_mono E state) (check_word_space_mono E state)
    (store_fill_color_mono E) (store_stroke_color_mono E) (check_rise_mono E state)

theorem run_part_mono (E : Env) (state : GfxState) (l : List CheckStep)
    (hl : ∀ f ∈ l, f ∈ check_steps E state) (S S1 : CheckState)
    (hrun : run_steps l S = some S1) : S.new_line_state ≤ S1.new_line_state :=
  run_part_rel E state (fun S S1 => S.new_line_state ≤ S1.new_line_state)
    (fun _ => le_refl _) (fun _ _ _ => le_trans) (check_steps_mono E state) l hl S S1 hrun

theorem check_upto_mono (E : Env) (state : GfxState) (R : HTMLRenderer) (i j : Nat)
    (hij : i ≤ j) (Si Sj : CheckState) (hi : check_upto i E state R = some Si)
    (hj : check_upto j E state R = some Sj) : Si.new_line_state ≤ Sj.new_line_state := by
  unfold check_upto at hi hj
  obtain ⟨k, rfl⟩ := Nat.exists_eq_add_of_le hij
  have hsplit : (check_steps E state).take (i + k) =
      (check_steps E state).take i ++ ((check_steps E state).drop i).take k := by
    rw [List.take_add]
  rw [hsplit, run_steps_append, hi] at hj
  exact run_part_mono E state _
    (fun f hf => List.mem_of_mem_drop (List.mem_of_mem_take hf)) Si Sj hj

/-- C5: within one call of check_state_change the verdict never decreases. It starts at
NLS_NONE; every checking block (and every store inside a block) leaves it at least as high as it
found it; the verdict after a longer run of steps is at least the verdict after a shorter one;
the final verdict is at least the verdict after any number of steps; with a rendering mode in
0..7 every run of steps and the whole call return. -/
theorem verdict_never_decreases (E : Env) (state : GfxState) (R : HTMLRenderer) :
    (check_begin R).new_line_state = NewLineState.NLS_NONE ∧
    (∀ S, S.new_line_state ≤ (check_text_pos S).new_line_state) ∧
    (∀ S, S.new_line_state ≤ (check_font E state S).new_line_state) ∧
    (∀ S, S.new_line_state ≤ (check_text_tm E state S).new_line_state) ∧
    (∀ D S, S.new_line_state ≤ (store_draw_text_scale E D S).new_line_state) ∧
    (∀ D S, S.new_line_state ≤ (store_font_size E D S).new_line_state) ∧
    (∀ D S, S.new_line_state ≤ (store_transform_matrix E D S).new_line_state) ∧
    (∀ S, S.new_line_state ≤ (check_rescale_font E S).new_line_state) ∧
    (∀ S, S.new_line_state ≤ (check_position E S).new_line_state) ∧
    (∀ S, S.new_line_state ≤ (check_letter_space E state S).new_line_state) ∧
    (∀ S, S.new_line_state ≤ (check_word_space E state S).new_line_state) ∧
    (∀ S S1, check_fill_color E state S = some S1 → S.new_line_state ≤ S1.new_line_state) ∧
    (∀ S S1, check_stroke_color E state S = some S1 → S.new_line_state ≤ S1.new_line_state) ∧
    (∀ S, S.new_line_state ≤ (check_rise E state S).new_line_state) ∧
    (∀ S, (reset_state_change S).new_line_state = S.new_line_state) ∧
    (∀ i j Si Sj, i ≤ j → check_upto i E state R = some Si → check_upto j E state R = some Sj →
      Si.new_line_state ≤ Sj.new_line_state) ∧
    (∀ i Si R1, check_upto i E state R = some Si → check_state_change E state R = some R1 →
      Si.new_line_state ≤ R1.new_line_state) ∧
    (valid_render state →
      (∀ i, ∃ Si, check_upto i E state R = some Si) ∧
      ∃ R1, check_state_change E state R = some R1) := by
  refine ⟨rfl, fun S => (check_text_pos_nls S).ge, check_font_mono E state,
    fun S => (check_text_tm_nls E state S).ge, fun D S => (store_draw_text_scale_nls E D S).ge,
    store_font_size_mono E, store_transform_matrix_mono E, check_rescale_font_mono E,
    check_position_mono E, check_letter_space_mono E state, check_word_space_mono E state,
    ?_, ?_, check_rise_mono E state, fun S => rfl, ?_, ?_, ?_⟩
  · intro S S1 h
    rcases check_fill_color_cases E state S S1 h with rfl | ⟨c, rfl⟩
    · exact le_refl _
    · exact store_fill_color_mono E c S
  · intro S S1 h
    rcases check_stroke_color_cases E state S S1 h with rfl | ⟨c, rfl⟩
    · exact le_refl _
    · exact store_stroke_color_mono E c S
  · intro i j Si Sj hij hi hj
    exact check_upto_mono E state R i j hij Si Sj hi hj
  · intro i Si R1 hi h
    rw [check_state_change_eq_upto] at h
    cases h10 : check_upto 10 E state R with
    | none => simp [h10] at h
    | some S10 =>
      rw [h10] at h
      cases Option.some.inj h
      rcases le_total i 10 with hle | hge
      · exact check_upto_mono E state R i 10 hle Si S10 hi h10
      · have : check_upto i E state R = check_upto 10 E state R := by
          unfold check_upto
          rw [List.take_of_length_le (by simpa [check_steps] using hge),
            List.take_of_length_le (by simp [check_steps])]
        rw [this, h10] at hi
        cases Option.some.inj hi
        exact le_refl _
  · intro hr
    exact ⟨fun i => check_upto_total E state hr i R, check_state_change_total E state hr R⟩

/-! ## Runs that start after the first `k` steps -/

theorem check_state_change_split (E : Env) (state : GfxState) (R : HTMLRenderer) (k : Nat)
    (Sk : CheckState) (hk : check_upto k E state R = some Sk) :
    check_state_change E state R =
      (run_steps ((check_steps E state).drop k) Sk).map
        (fun S => reset_state_change S.toHTMLRenderer) := by
  rw [check_state_change_eq_run]
  conv_lhs => rw [← List.take_append_drop k (check_steps E state)]
  rw [run_steps_append]
  unfold check_upto at hk
  rw [hk]
  rfl

theorem mem_drop_check_steps (E : Env) (state : GfxState) (k : Nat) (f : CheckStep)
    (hf : f ∈ (check_steps E state).drop k) :
    ∃ j, k ≤ j ∧ (check_steps E state).get? j = some f := by
  obtain ⟨i, hi, rfl⟩ := List.getElem_of_mem hf
  refine ⟨k + i, Nat.le_add_right k i, ?_⟩
  rw [List.getElem_drop]
  simp only [List.length_drop] at hi
  rw [List.get?_eq_getElem?, List.getElem?_eq_getElem]

/-- A relation respected by the blocks after the first `k` is respected by the rest of the
run. -/
theorem drop_steps_rel (E : Env) (state : GfxState) (k : Nat)
    (Rel : CheckState → CheckState → Prop)
    (hrefl : ∀ S, Rel S S) (htrans : ∀ a b c, Rel a b → Rel b c → Rel a c)
    (h1 : k < 1 → ∀ S, Rel S (check_text_pos S))
    (h2 : k < 2 → ∀ S, Rel S (check_font E state S))
    (h3 : k < 3 → ∀ S, Rel S (check_text_tm E state S))
    (h4 : k < 4 → ∀ S, Rel S (check_rescale_font E S))
    (h5 : k < 5 → ∀ S, Rel S (check_position E S))
    (h6 : k < 6 → ∀ S, Rel S (check_letter_space E state S))
    (h7 : k < 7 → ∀ S, Rel S (check_word_space E state S))
    (h8 : k < 8 → ∀ c S, Rel S (store_fill_color E c S))
    (h9 : k < 9 → ∀ c S, Rel S (store_stroke_color E c S))
    (h10 : k < 10 → ∀ S, Rel S (check_rise E state S))
    (S S1 : CheckState) (hrun : run_steps ((check_steps E state).drop k) S = some S1) :
    Rel S S1 := by
  refine run_steps_rel Rel hrefl htrans _ ?_ S S1 hrun
  intro f hf T T1 h
  obtain ⟨j, hkj, hj⟩ := mem_drop_check_steps E state k f hf
  have hlt : j < 10 := by
    by_contra hge
    rw [List.get?_eq_none.mpr (by simpa [check_steps] using hge)] at hj
    exact Option.noConfusion hj
  interval_cases j <;> simp only [check_steps, List.get?, Option.some.injEq] at hj <;> subst hj
  · cases Option.some.inj h; exact h1 (by omega) T
  · cases Option.some.inj h; exact h2 (by omega) T
  · cases Option.some.inj h; exact h3 (by omega) T
  · cases Option.some.inj h; exact h4 (by omega) T
  · cases Option.some.inj h; exact h5 (by omega) T
  · cases Option.some.inj h; exact h6 (by omega) T
  · cases Option.some.inj h; exact h7 (by omega) T
  · rcases check_fill_color_cases E state T T1 h with rfl | ⟨c, rfl⟩
    · exact hrefl _
    · exact h8 (by omega) c T
  · rcases check_stroke_color_cases E state T T1 h with rfl | ⟨c, rfl⟩
    · exact hrefl _
    · exact h9 (by omega) c T
  · cases Option.some.inj h; exact h10 (by omega) T

/-! ## Members written by one block only -/

theorem after_font_keeps (E : Env) (state : GfxState) (S S1 : CheckState)
    (hrun : run_steps ((check_steps E state).drop 2) S = some S1) :
    S1.cur_html_state.font_info = S.cur_html_state.font_info ∧
      S1.cur_font_size = S.cur_font_size := by
  refine drop_steps_rel E state 2
    (fun S S1 => S1.cur_html_state.font_info = S.cur_html_state.font_info ∧
      S1.cur_font_size = S.cur_font_size)
    (fun _ => ⟨rfl, rfl⟩) (fun _ _ _ h1 h2 => ⟨h2.1.trans h1.1, h2.2.trans h1.2⟩)
    ?_ ?_ ?_ ?_ ?_ ?_ ?_ ?_ ?_ ?_ S S1 hrun
  all_goals intro hk
  all_goals first | (exfalso; omega) | skip
  all_goals intros
  all_goals simp only [check_text_tm, check_rescale_font, store_draw_text_scale,
    store_font_size, store_transform_matrix, check_position, check_letter_space,
    check_word_space, store_fill_color, store_stroke_color, check_rise]
  all_goals split_ifs <;> exact ⟨rfl, rfl⟩

/-! ## Blocks whose condition is false -/

theorem check_text_pos_eq (S : CheckState) :
    check_text_pos S =
      { S with need_recheck_position :=
          (S.all_changed || S.text_pos_changed) || S.need_recheck_position } := by
  unfold check_text_pos
  split_ifs with h
  · simp [h]
  · have h1 : (S.all_changed || S.text_pos_changed) = false := by simpa using h
    simp [h1]

theorem check_font_skip (E : Env) (state : GfxState) (S : CheckState)
    (h : (S.all_changed || S.font_changed) = false) : check_font E state S = S := by
  simp [check_font, h]

theorem check_text_tm_skip (E : Env) (state : GfxState) (S : CheckState)
    (h : (S.all_changed || S.ctm_changed || S.text_mat_changed || S.hori_scale_changed) = false) :
    check_text_tm E state S = { S with old_tm := S.cur_text_tm } := by
  have h1 : ¬ ((S.all_changed || S.ctm_changed || S.text_mat_changed || S.hori_scale_changed)
      = true) := by simp [h]
  unfold check_text_tm
  dsimp only
  rw [if_neg h1]

theorem check_rescale_font_skip (E : Env) (S : CheckState) (h : S.need_rescale_font = false) :
    check_rescale_font E S = S := by
  simp [check_rescale_font, h]

theorem check_position_skip (E : Env) (S : CheckState)
    (h : S.need_recheck_position = false) : check_position E S = S := by
  simp [check_position, h]

theorem check_letter_space_skip (E : Env) (state : GfxState) (S : CheckState)
    (h : (S.all_changed || S.letter_space_changed || S.draw_text_scale_changed) = false) :
    check_letter_space E state S = S := by
  have h1 : ¬ ((S.all_changed || S.letter_space_changed || S.draw_text_scale_changed) = true) := by
    simp [h]
  unfold check_letter_space
  rw [if_neg h1]

theorem check_word_space_skip (E : Env) (state : GfxState) (S : CheckState)
    (h : (S.all_changed || S.word_space_changed || S.draw_text_scale_changed) = false) :
    check_word_space E state S = S := by
  have h1 : ¬ ((S.all_changed || S.word_space_changed || S.draw_text_scale_changed) = true) := by
    simp [h]
  unfold check_word_space
  rw [if_neg h1]

theorem check_rise_skip (E : Env) (state : GfxState) (S : CheckState)
    (h : (S.all_changed || S.rise_changed || S.draw_text_scale_changed) = false) :
    check_rise E state S = S := by
  have h1 : ¬ ((S.all_changed || S.rise_changed || S.draw_text_scale_changed) = true) := by
    simp [h]
  unfold check_rise
  rw [if_neg h1]

theorem check_position_locals (E : Env) (S : CheckState) :
    (check_position E S).draw_text_scale_changed = S.draw_text_scale_changed ∧
      (check_position E S).need_rescale_font = S.need_rescale_font ∧
      (check_position E S).need_recheck_position = S.need_recheck_position ∧
      (check_position E S).old_tm = S.old_tm := by
  unfold check_position
  dsimp only
  split_ifs <;> exact ⟨rfl, rfl, rfl, rfl⟩

/-- The whole call, written as the composition of its blocks. -/
theorem check_state_change_eq_blocks (E : Env) (state : GfxState) (R : HTMLRenderer) :
    check_state_change E state R =
      ((check_fill_color E state
          (check_word_space E state (check_letter_space E state (check_position E
            (check_rescale_font E (check_text_tm E state (check_font E state
              (check_text_pos (check_begin R))))))))).bind fun S8 =>
        (check_stroke_color E state S8).bind fun S9 =>
          some (reset_state_change (check_rise E state S9).toHTMLRenderer)) := by
  simp only [check_state_change, bind, pure]

/-- After the position block nothing is left to do when no style flag is dirty and the draw
scale did not change. -/
theorem styles_skip (E : Env) (state : GfxState) (S : CheckState)
    (h0 : S.all_changed = false) (h1 : S.rise_changed = false)
    (h7 : S.letter_space_changed = false) (h8 : S.word_space_changed = false)
    (h9 : S.fill_color_changed = false) (h10 : S.stroke_color_changed = false)
    (hd : S.draw_text_scale_changed = false) :
    ((check_fill_color E state
        (check_word_space E state (check_letter_space E state S))).bind fun S8 =>
      (check_stroke_color E state S8).bind fun S9 =>
        some (reset_state_change (check_rise E state S9).toHTMLRenderer)) =
      some (reset_state_change S.toHTMLRenderer) := by
  rw [check_letter_space_skip E state _ (by rw [h0, h7, hd]; rfl),
    check_word_space_skip E state _ (by rw [h0, h8, hd]; rfl),
    check_fill_color_skip E state _ (by rw [h0, h9]; simp)]
  simp only [Option.some_bind]
  rw [check_stroke_color_skip E state _ (by rw [h0, h10]; simp)]
  simp only [Option.some_bind]
  rw [check_rise_skip E state _ (by rw [h0, h1, hd]; rfl)]

/-- The state in which the position block runs when only the text position may be dirty, and
the result of the call. -/
theorem check_state_change_text_pos_only (E : Env) (state : GfxState) (R : HTMLRenderer)
    (h0 : R.all_changed = false) (h1 : R.rise_changed = false)
    (h3 : R.font_changed = false) (h4 : R.ctm_changed = false)
    (h5 : R.text_mat_changed = false) (h6 : R.hori_scale_changed = false)
    (h7 : R.letter_space_changed = false) (h8 : R.word_space_changed = false)
    (h9 : R.fill_color_changed = false) (h10 : R.stroke_color_changed = false) :
    check_state_change E state R =
      some (reset_state_change (check_position E
        { check_begin R with
          need_recheck_position := R.text_pos_changed
          old_tm := R.cur_text_tm }).toHTMLRenderer) := by
  rw [check_state_change_eq_blocks]
  have e1 : check_text_pos (check_begin R) =
      { check_begin R with need_recheck_position := R.text_pos_changed } := by
    rw [check_text_pos_eq]
    simp [check_begin, h0]
  rw [e1, check_font_skip E state _ (by simp [check_begin, h0, h3]),
    check_text_tm_skip E state _ (by simp [check_begin, h0, h4, h5, h6]),
    check_rescale_font_skip E _ (by simp [check_begin])]
  have hp := check_position_frame E
    { check_begin R with need_recheck_position := R.text_pos_changed, old_tm := R.cur_text_tm }
  have hl := check_position_locals E
    { check_begin R with need_recheck_position := R.text_pos_changed, old_tm := R.cur_text_tm }
  exact styles_skip E state _ (hp.all_changed.trans h0) (hp.rise_changed.trans h1)
    (hp.letter_space_changed.trans h7) (hp.word_space_changed.trans h8)
    (hp.fill_color_changed.trans h9) (hp.stroke_color_changed.trans h10) (hl.1.trans rfl)

/-! ## The position block under an unchanged matrix -/

theorem merge_position_same_tm (E : Env) (hE : 0 < E.EPS) (tm : TM) (dtx ty ctx : ℚ) :
    merge_position E tm tm dtx ty ctx ty =
      if !equal E tm.e0 0 then
        { merged := true, dx := ctx - dtx, divs := [(.by_old_tm0, tm.e0)] }
      else if !equal E tm.e1 0 then
        { merged := true, dx := ctx - dtx, divs := [(.by_old_tm1, tm.e1)] }
      else if equal E (tm.e0 * (ctx - dtx)) 0 && equal E (tm.e1 * (ctx - dtx)) 0 then
        { merged := true, dx := 0, divs := [] }
      else
        { merged := false, dx := 0, divs := [] } := by
  have l1 : merge_lhs1 tm tm dtx ty ctx ty = tm.e0 * (ctx - dtx) := by
    unfold merge_lhs1
    ring
  have l2 : merge_lhs2 tm tm dtx ty ctx ty = tm.e1 * (ctx - dtx) := by
    unfold merge_lhs2
    ring
  have hc : equal E (tm.e0 * (tm.e1 * (ctx - dtx))) (tm.e1 * (tm.e0 * (ctx - dtx))) = true :=
    equal_of_eq E hE (by ring)
  unfold merge_position
  simp only [tm_equal_self E hE, l1, l2, hc, if_true]
  by_cases h0 : equal E tm.e0 0 = true
  · by_cases h1 : equal E tm.e1 0 = true
    · simp [h0, h1]
    · have h1f : equal E tm.e1 0 = false := by simpa using h1
      have hne := ne_zero_of_not_equal E hE h1f
      simp [h0, h1f, mul_div_cancel_left₀ _ hne]
  · have h0f : equal E tm.e0 0 = false := by simpa using h0
    have hne := ne_zero_of_not_equal E hE h0f
    simp [h0f, mul_div_cancel_left₀ _ hne]

/-- The merge condition of the position block when the matrix is unchanged and the move is
horizontal by `d`: the matrix is not degenerate, or the residuals vanish. -/
theorem merge_position_same_tm_merged (E : Env) (hE : 0 < E.EPS) (tm : TM) (dtx ty ctx : ℚ) :
    (merge_position E tm tm dtx ty ctx ty).merged =
      (!equal E tm.e0 0 || !equal E tm.e1 0 ||
        (equal E (tm.e0 * (ctx - dtx)) 0 && equal E (tm.e1 * (ctx - dtx)) 0)) := by
  rw [merge_position_same_tm E hE]
  cases equal E tm.e0 0 <;> cases equal E tm.e1 0 <;>
    cases equal E (tm.e0 * (ctx - dtx)) 0 <;> cases equal E (tm.e1 * (ctx - dtx)) 0 <;> rfl

theorem merge_position_same_tm_dx (E : Env) (hE : 0 < E.EPS) (tm : TM) (dtx ty ctx : ℚ) :
    (merge_position E tm tm dtx ty ctx ty).dx =
      if !equal E tm.e0 0 || !equal E tm.e1 0 then ctx - dtx else 0 := by
  rw [merge_position_same_tm E hE]
  cases equal E tm.e0 0 <;> cases equal E tm.e1 0 <;>
    cases equal E (tm.e0 * (ctx - dtx)) 0 <;> cases equal E (tm.e1 * (ctx - dtx)) 0 <;> rfl

theorem check_position_merged (E : Env) (S : CheckState)
    (hneed : S.need_recheck_position = true) (hnls : S.new_line_state < NewLineState.NLS_DIV)
    (hm : (merge_position E S.old_tm S.cur_text_tm S.draw_tx S.draw_ty S.cur_tx
      S.cur_ty).merged = true) :
    (check_position E S).new_line_state = S.new_line_state ∧
      (check_position E S).text_line_buf = S.text_line_buf ++
        [BufOp.append_offset ((merge_position E S.old_tm S.cur_text_tm S.draw_tx S.draw_ty
          S.cur_tx S.cur_ty).dx * S.draw_text_scale)] ∧
      (check_position E S).draw_tx = S.cur_tx ∧ (check_position E S).draw_ty = S.cur_ty := by
  unfold check_position
  simp [hneed, hnls, hm]

theorem check_position_not_merged (E : Env) (S : CheckState)
    (hneed : S.need_recheck_position = true) (hnls : S.new_line_state < NewLineState.NLS_DIV)
    (hm : (merge_position E S.old_tm S.cur_text_tm S.draw_tx S.draw_ty S.cur_tx
      S.cur_ty).merged = false) :
    (check_position E S).new_line_state = NewLineState.NLS_DIV ∧
      (check_position E S).text_line_buf = S.text_line_buf ∧
      (check_position E S).draw_tx = S.draw_tx ∧ (check_position E S).draw_ty = S.draw_ty := by
  unfold check_position
  simp [hneed, hnls, hm, nls_max_DIV]

/-! ## A move of the text position alone -/

/-- The result of a call in which only the text-position flag is dirty, the matrix being the
one of the previous glyph and the move horizontal. -/
theorem text_pos_only_result (E : Env) (hE : 0 < E.EPS) (state : GfxState) (R : HTMLRenderer)
    (h0 : R.all_changed = false) (h1 : R.rise_changed = false) (h2 : R.text_pos_changed = true)
    (h3 : R.font_changed = false) (h4 : R.ctm_changed = false)
    (h5 : R.text_mat_changed = false) (h6 : R.hori_scale_changed = false)
    (h7 : R.letter_space_changed = false) (h8 : R.word_space_changed = false)
    (h9 : R.fill_color_changed = false) (h10 : R.stroke_color_changed = false)
    (hty : R.cur_ty = R.draw_ty) :
    ∃ R1, check_state_change E state R = some R1 ∧
      R1.draw_text_scale = R.draw_text_scale ∧ R1.cur_tx = R.cur_tx ∧
      ((horizontal_merge_ok E R.cur_text_tm (R.cur_tx - R.draw_tx) = true ∧
        R1.new_line_state = NewLineState.NLS_NONE ∧
        R1.text_line_buf = R.text_line_buf ++
          [BufOp.append_offset ((if !equal E R.cur_text_tm.e0 0 || !equal E R.cur_text_tm.e1 0
            then R.cur_tx - R.draw_tx else 0) * R.draw_text_scale)] ∧
        R1.draw_tx = R.cur_tx ∧ R1.draw_ty = R.cur_ty) ∨
      (horizontal_merge_ok E R.cur_text_tm (R.cur_tx - R.draw_tx) = false ∧
        R1.new_line_state = NewLineState.NLS_DIV ∧
        R1.text_line_buf = R.text_line_buf ∧
        R1.draw_tx = R.draw_tx ∧ R1.draw_ty = R.draw_ty)) := by
  refine ⟨_, check_state_change_text_pos_only E state R h0 h1 h3 h4 h5 h6 h7 h8 h9 h10, ?_⟩
  unfold horizontal_merge_ok
  generalize hS : ({ check_begin R with need_recheck_position := R.text_pos_changed
                                        old_tm := R.cur_text_tm } : CheckState) = S
  have e1 : S.need_recheck_position = true := by rw [← hS]; exact h2
  have e2 : S.new_line_state = NewLineState.NLS_NONE := by rw [← hS]; rfl
  have e3 : S.old_tm = R.cur_text_tm := by rw [← hS]
  have e4 : S.cur_text_tm = R.cur_text_tm := by rw [← hS]; rfl
  have e5 : S.draw_tx = R.draw_tx := by rw [← hS]; rfl
  have e6 : S.draw_ty = R.draw_ty := by rw [← hS]; rfl
  have e7 : S.cur_tx = R.cur_tx := by rw [← hS]; rfl
  have e8 : S.cur_ty = R.draw_ty := by rw [← hS]; exact hty
  have e9 : S.text_line_buf = R.text_line_buf := by rw [← hS]; rfl
  have e10 : S.draw_text_scale = R.draw_text_scale := by rw [← hS]; rfl
  have hf := check_position_frame E S
  refine ⟨?_, hf.cur_tx.trans e7, ?_⟩
  · rw [← e10]
    unfold check_position
    dsimp only
    split_ifs <;> rfl
  have hm := merge_position_same_tm_merged E hE R.cur_text_tm R.draw_tx R.draw_ty R.cur_tx
  have hd := merge_position_same_tm_dx E hE R.cur_text_tm R.draw_tx R.draw_ty R.cur_tx
  have hlt : S.new_line_state < NewLineState.NLS_DIV := by rw [e2]; decide
  rw [← e4, ← e5, ← e6, ← e7] at hm hd
  have e34 : S.old_tm = S.cur_text_tm := e3.trans e4.symm
  have e86 : S.cur_ty = S.draw_ty := e8.trans e6.symm
  cases hc : (!equal E R.cur_text_tm.e0 0 || !equal E R.cur_text_tm.e1 0 ||
          (equal E (R.cur_text_tm.e0 * (R.cur_tx - R.draw_tx)) 0 &&
            equal E (R.cur_text_tm.e1 * (R.cur_tx - R.draw_tx)) 0))
  · right
    refine ⟨rfl, ?_⟩
    have hres := check_position_not_merged E S e1 hlt (by
      rw [e34, e86, hm, e4, e5, e7]; exact hc)
    rw [e9, e5, e6] at hres
    exact hres
  · left
    refine ⟨rfl, ?_⟩
    have hres := check_position_merged E S e1 hlt (by
      rw [e34, e86, hm, e4, e5, e7]; exact hc)
    rw [e34, e86, hd, e4, e5, e7, e9, e10, e2, e6] at hres
    rw [hty]
    exact hres

theorem demo_env_EPS_pos : 0 < demo_env.EPS := by
  norm_num [demo_env]

/-- The blocks before the colour blocks do not read the colour inputs: the two colour flags of
the renderer and the fill RGB, stroke RGB and rendering mode of the graphics state. -/
theorem spaces_ignore_colours (E : Env) (state : GfxState) (R : HTMLRenderer)
    (fr sr : GfxRGB) (rm : Int) (fc sc : Bool) :
    check_word_space E { state with FillRGB := fr, StrokeRGB := sr, Render := rm }
      (check_letter_space E { state with FillRGB := fr, StrokeRGB := sr, Render := rm }
        (check_position E (check_rescale_font E
          (check_text_tm E { state with FillRGB := fr, StrokeRGB := sr, Render := rm }
            (check_font E { state with FillRGB := fr, StrokeRGB := sr, Render := rm }
              (check_text_pos (check_begin
                { R with fill_color_changed := fc, stroke_color_changed := sc }))))))) =
    { check_word_space E state (check_letter_space E state (check_position E
        (check_rescale_font E (check_text_tm E state (check_font E state
          (check_text_pos (check_begin R))))))) with
      fill_color_changed := fc, stroke_color_changed := sc } := by
  have e0 : check_begin { R with fill_color_changed := fc, stroke_color_changed := sc } =
      { check_begin R with fill_color_changed := fc, stroke_color_changed := sc } := rfl
  have e1 : ∀ S : CheckState,
      check_text_pos { S with fill_color_changed := fc, stroke_color_changed := sc } =
        { check_text_pos S with fill_color_changed := fc, stroke_color_changed := sc } := by
    intro S
    unfold check_text_pos
    dsimp only
    split_ifs <;> rfl
  have e2 : ∀ S : CheckState,
      check_font E { state with FillRGB := fr, StrokeRGB := sr, Render := rm }
          { S with fill_color_changed := fc, stroke_color_changed := sc } =
        { check_font E state S with fill_color_changed := fc, stroke_color_changed := sc } := by
    intro S
    unfold check_font
    dsimp only
    split_ifs <;> rfl
  have e3 : ∀ S : CheckState,
      check_text_tm E { state with FillRGB := fr, StrokeRGB := sr, Render := rm }
          { S with fill_color_changed := fc, stroke_color_changed := sc } =
        { check_text_tm E state S with
          fill_color_changed := fc, stroke_color_changed := sc } := by
    intro S
    unfold check_text_tm
    dsimp only
    split_ifs <;> rfl
  have e4 : ∀ S : CheckState,
      check_rescale_font E { S with fill_color_changed := fc, stroke_color_changed := sc } =
        { check_rescale_font E S with
          fill_color_changed := fc, stroke_color_changed := sc } := by
    intro S
    unfold check_rescale_font store_transform_matrix store_font_size store_draw_text_scale
    dsimp only
    split_ifs <;> rfl
  have e5 : ∀ S : CheckState,
      check_position E { S with fill_color_changed := fc, stroke_color_changed := sc } =
        { check_position E S with fill_color_changed := fc, stroke_color_changed := sc } := by
    intro S
    unfold check_position
    dsimp only
    split_ifs <;> rfl
  have e6 : ∀ S : CheckState,
      check_letter_space E { state with FillRGB := fr, StrokeRGB := sr, Render := rm }
          { S with fill_color_changed := fc, stroke_color_changed := sc } =
        { check_letter_space E state S with
          fill_color_changed := fc, stroke_color_changed := sc } := by
    intro S
    unfold check_letter_space
    dsimp only
    split_ifs <;> rfl
  have e7 : ∀ S : CheckState,
      check_word_space E { state with FillRGB := fr, StrokeRGB := sr, Render := rm }
          { S with fill_color_changed := fc, stroke_color_changed := sc } =
        { check_word_space E state S with
          fill_color_changed := fc, stroke_color_changed := sc } := by
    intro S
    unfold check_word_space
    dsimp only
    split_ifs <;> rfl
  rw [e0, e1, e2, e3, e4, e5, e6, e7]

theorem check_rise_ignores_colours (E : Env) (state : GfxState) (S : CheckState)
    (fr sr : GfxRGB) (rm : Int) (fc sc : Bool) :
    reset_state_change (check_rise E { state with FillRGB := fr, StrokeRGB := sr, Render := rm }
      { S with fill_color_changed := fc, stroke_color_changed := sc }).toHTMLRenderer =
    reset_state_change (check_rise E state S).toHTMLRenderer := by
  unfold check_rise
  dsimp only
  split_ifs <;> rfl

/-- The blocks before the colour blocks, composed. -/
theorem spaces_frame (E : Env) (state : GfxState) (R : HTMLRenderer) :
    Frame R (check_word_space E state (check_letter_space E state (check_position E
      (check_rescale_font E (check_text_tm E state (check_font E state
        (check_text_pos (check_begin R)))))))).toHTMLRenderer := by
  have h0 : Frame R (check_begin R).toHTMLRenderer := by constructor <;> rfl
  exact h0.frame_trans ((check_text_pos_frame _).frame_trans
    ((check_font_frame E state _).frame_trans ((check_text_tm_frame E state _).frame_trans
      ((check_rescale_font_frame E _).frame_trans ((check_position_frame E _).frame_trans
        ((check_letter_space_frame E state _).frame_trans
          (check_word_space_frame E state _)))))))

theorem spaces_keep_colours (E : Env) (state : GfxState) (R : HTMLRenderer) :
    (check_word_space E state (check_letter_space E state (check_position E
      (check_rescale_font E (check_text_tm E state (check_font E state
        (check_text_pos (check_begin R)))))))).cur_html_state.fill_color =
        R.cur_html_state.fill_color ∧
    (check_word_space E state (check_letter_space E state (check_position E
      (check_rescale_font E (check_text_tm E state (check_font E state
        (check_text_pos (check_begin R)))))))).cur_html_state.stroke_color =
        R.cur_html_state.stroke_color := by
  have k1 : ∀ S : CheckState, (check_text_pos S).cur_html_state.fill_color =
      S.cur_html_state.fill_color ∧ (check_text_pos S).cur_html_state.stroke_color =
      S.cur_html_state.stroke_color := by
    intro S; unfold check_text_pos; split_ifs <;> exact ⟨rfl, rfl⟩
  have k2 : ∀ S : CheckState, (check_font E state S).cur_html_state.fill_color =
      S.cur_html_state.fill_color ∧ (check_font E state S).cur_html_state.stroke_color =
      S.cur_html_state.stroke_color := by
    intro S; unfold check_font; dsimp only; split_ifs <;> exact ⟨rfl, rfl⟩
  have k3 : ∀ S : CheckState, (check_text_tm E state S).cur_html_state.fill_color =
      S.cur_html_state.fill_color ∧ (check_text_tm E state S).cur_html_state.stroke_color =
      S.cur_html_state.stroke_color := by
    intro S; unfold check_text_tm; dsimp only; split_ifs <;> exact ⟨rfl, rfl⟩
  have k4 : ∀ S : CheckState, (check_rescale_font E S).cur_html_state.fill_color =
      S.cur_html_state.fill_color ∧ (check_rescale_font E S).cur_html_state.stroke_color =
      S.cur_html_state.stroke_color := by
    intro S
    unfold check_rescale_font store_transform_matrix store_font_size store_draw_text_scale
    dsimp only; split_ifs <;> exact ⟨rfl, rfl⟩
  have k5 : ∀ S : CheckState, (check_position E S).cur_html_state.fill_color =
      S.cur_html_state.fill_color ∧ (check_position E S).cur_html_state.stroke_color =
      S.cur_html_state.stroke_color := by
    intro S; unfold check_position; dsimp only; split_ifs <;> exact ⟨rfl, rfl⟩
  have k6 : ∀ S : CheckState, (check_letter_space E state S).cur_html_state.fill_color =
      S.cur_html_state.fill_color ∧ (check_letter_space E state S).cur_html_state.stroke_color =
      S.cur_html_state.stroke_color := by
    intro S; unfold check_letter_space; dsimp only; split_ifs <;> exact ⟨rfl, rfl⟩
  have k7 : ∀ S : CheckState, (check_word_space E state S).cur_html_state.fill_color =
      S.cur_html_state.fill_color ∧ (check_word_space E state S).cur_html_state.stroke_color =
      S.cur_html_state.stroke_color := by
    intro S; unfold check_word_space; dsimp only; split_ifs <;> exact ⟨rfl, rfl⟩
  constructor
  · rw [(k7 _).1, (k6 _).1, (k5 _).1, (k4 _).1, (k3 _).1, (k2 _).1, (k1 _).1]
    rfl
  · rw [(k7 _).2, (k6 _).2, (k5 _).2, (k4 _).2, (k3 _).2, (k2 _).2, (k1 _).2]
    rfl

/-- Under fallback the colour blocks are skipped, whatever the rendering mode. -/
theorem check_state_change_fallback (E : Env) (state : GfxState) (R : HTMLRenderer)
    (hf : R.param.fallback = true) :
    check_state_change E state R =
      some (reset_state_change (check_rise E state
        (check_word_space E state (check_letter_space E state (check_position E
          (check_rescale_font E (check_text_tm E state (check_font E state
            (check_text_pos (check_begin R))))))))).toHTMLRenderer) := by
  rw [check_state_change_eq_blocks]
  have hfr := spaces_frame E state R
  rw [check_fill_color_skip E state _ (by rw [hfr.param, hf]; rfl)]
  simp only [Option.some_bind]
  rw [check_stroke_color_skip E state _ (by rw [hfr.param, hf]; rfl)]
  simp only [Option.some_bind]

/-- The call returns when the rendering mode respects the contract or fallback is set. -/
theorem check_state_change_returns (E : Env) (state : GfxState) (R : HTMLRenderer)
    (hr : valid_render state ∨ R.param.fallback = true) :
    ∃ R1, check_state_change E state R = some R1 := by
  rcases hr with hr | hf
  · exact check_state_change_total E state hr R
  · exact ⟨_, check_state_change_fallback E state R hf⟩

/-- C1: a font change that crosses a type-3 boundary always ends in the verdict Div. If
check_state_change runs with the font flag or the all flag dirty, the installed font has an id
different from the current one and either font is type-3, then (the rendering mode being in 0..7,
or fallback being set, so that the call returns) the call returns with new_line_state = NLS_DIV
and cur_html_state.font_info is the new font. -/
theorem type3_font_change_is_div (E : Env) (state : GfxState) (R : HTMLRenderer)
    (hflag : R.all_changed = true ∨ R.font_changed = true)
    (hid : (E.install_font state.Font).id ≠ R.cur_html_state.font_info.id)
    (ht3 : (E.install_font state.Font).is_type3 = true ∨
      R.cur_html_state.font_info.is_type3 = true)
    (hr : valid_render state ∨ R.param.fallback = true) :
    ∃ R1, check_state_change E state R = some R1 ∧
      R1.new_line_state = NewLineState.NLS_DIV ∧
      R1.cur_html_state.font_info = E.install_font state.Font := by
  obtain ⟨R1, hR1⟩ := check_state_change_returns E state R hr
  refine ⟨R1, hR1, ?_⟩
  have h2 : check_upto 2 E state R = some (check_font E state (check_text_pos (check_begin R))) :=
    rfl
  rw [check_state_change_split E state R 2 _ h2] at hR1
  cases hrun : run_steps ((check_steps E state).drop 2)
      (check_font E state (check_text_pos (check_begin R))) with
  | none => simp [hrun] at hR1
  | some S10 =>
    rw [hrun] at hR1
    cases Option.some.inj hR1
    have hmono := run_part_mono E state _ (fun f hf => List.mem_of_mem_drop hf) _ _ hrun
    have hkeep := (after_font_keeps E state _ _ hrun).1
    have hfl : (check_text_pos (check_begin R)).all_changed = true ∨
        (check_text_pos (check_begin R)).font_changed = true := by
      have hf := check_text_pos_frame (check_begin R)
      rw [hf.all_changed, hf.font_changed]
      exact hflag
    have hfi : (check_text_pos (check_begin R)).cur_html_state.font_info =
        R.cur_html_state.font_info := by
      unfold check_text_pos
      split_ifs <;> rfl
    have hfont : (check_font E state (check_text_pos (check_begin R))).new_line_state =
          NewLineState.NLS_DIV ∧
        (check_font E state (check_text_pos (check_begin R))).cur_html_state.font_info =
          E.install_font state.Font := by
      generalize check_text_pos (check_begin R) = S at hfl hfi
      rw [← hfi] at hid ht3
      have hc : (S.all_changed || S.font_changed) = true := by
        rcases hfl with h | h <;> simp [h]
      have hne : (!((E.install_font state.Font).id == S.cur_html_state.font_info.id)) = true := by
        simpa using hid
      have ht : ((E.install_font state.Font).is_type3 || S.cur_html_state.font_info.is_type3)
          = true := by
        rcases ht3 with h | h <;> simp [h]
      unfold check_font
      simp only [hc, hne, ht, if_true]
      split_ifs <;> exact ⟨nls_max_DIV _, rfl⟩
    constructor
    · show S10.new_line_state = _
      exact nls_eq_DIV_of_le (hfont.1 ▸ hmono)
    · show S10.cur_html_state.font_info = _
      rw [hkeep, hfont.2]

theorem type3_font_change_is_div_witness :
    ∃ R1, check_state_change demo_env { demo_gfx with Font := some 3 }
        { demo_renderer with font_changed := true } = some R1 ∧
      R1.new_line_state = NewLineState.NLS_DIV ∧
      R1.cur_html_state.font_info = demo_env.install_font (some 3) :=
  type3_font_change_is_div demo_env { demo_gfx with Font := some 3 }
    { demo_renderer with font_changed := true } (Or.inr rfl) (by decide) (Or.inl (by decide))
    (Or.inl ⟨by decide, by decide⟩)

/-- C3: under param->fallback = true, check_state_change does not depend on the colour inputs.
Two runs from the same renderer state that differ only in the fill RGB, stroke RGB and rendering
mode of the GfxState and in the flags fill_color_changed and stroke_color_changed return the
same renderer state (verdict, cur_html_state, running scalars, line buffer, cleared flags), and
the returned state has the fill and stroke colours of the state before the call. -/
theorem fallback_ignores_colours (E : Env) (state : GfxState) (R : HTMLRenderer)
    (hf : R.param.fallback = true) (fr fr1 sr sr1 : GfxRGB) (rm rm1 : Int)
    (fc fc1 sc sc1 : Bool) :
    check_state_change E { state with FillRGB := fr, StrokeRGB := sr, Render := rm }
        { R with fill_color_changed := fc, stroke_color_changed := sc } =
      check_state_change E { state with FillRGB := fr1, StrokeRGB := sr1, Render := rm1 }
        { R with fill_color_changed := fc1, stroke_color_changed := sc1 } ∧
    ∃ R1, check_state_change E { state with FillRGB := fr, StrokeRGB := sr, Render := rm }
        { R with fill_color_changed := fc, stroke_color_changed := sc } = some R1 ∧
      R1.cur_html_state.fill_color = R.cur_html_state.fill_color ∧
      R1.cur_html_state.stroke_color = R.cur_html_state.stroke_color := by
  have key : ∀ (fr : GfxRGB) (sr : GfxRGB) (rm : Int) (fc sc : Bool),
      check_state_change E { state with FillRGB := fr, StrokeRGB := sr, Render := rm }
        { R with fill_color_changed := fc, stroke_color_changed := sc } =
      some (reset_state_change (check_rise E state
        (check_word_space E state (check_letter_space E state (check_position E
          (check_rescale_font E (check_text_tm E state (check_font E state
            (check_text_pos (check_begin R))))))))).toHTMLRenderer) := by
    intro fr sr rm fc sc
    rw [check_state_change_fallback E
      { state with FillRGB := fr, StrokeRGB := sr, Render := rm }
      { R with fill_color_changed := fc, stroke_color_changed := sc } hf,
      spaces_ignore_colours, check_rise_ignores_colours]
  refine ⟨by rw [key, key], _, key fr sr rm fc sc, ?_, ?_⟩
  · have hk := (spaces_keep_colours E state R).1
    rw [← hk]
    unfold check_rise
    dsimp only
    split_ifs <;> rfl
  · have hk := (spaces_keep_colours E state R).2
    rw [← hk]
    unfold check_rise
    dsimp only
    split_ifs <;> rfl

theorem fallback_ignores_colours_witness :
    check_state_change demo_env
        { demo_gfx with FillRGB := ⟨1, 0, 0⟩, StrokeRGB := ⟨0, 1, 0⟩, Render := 2 }
        { { demo_renderer with param := ⟨true⟩ } with
          fill_color_changed := true, stroke_color_changed := true } =
      check_state_change demo_env
        { demo_gfx with FillRGB := ⟨0, 0, 1⟩, StrokeRGB := ⟨1, 1, 1⟩, Render := 9 }
        { { demo_renderer with param := ⟨true⟩ } with
          fill_color_changed := false, stroke_color_changed := false } ∧
    ∃ R1, check_state_change demo_env
        { demo_gfx with FillRGB := ⟨1, 0, 0⟩, StrokeRGB := ⟨0, 1, 0⟩, Render := 2 }
        { { demo_renderer with param := ⟨true⟩ } with
          fill_color_changed := true, stroke_color_changed := true } = some R1 ∧
      R1.cur_html_state.fill_color = demo_renderer.cur_html_state.fill_color ∧
      R1.cur_html_state.stroke_color = demo_renderer.cur_html_state.stroke_color :=
  fallback_ignores_colours demo_env demo_gfx { demo_renderer with param := ⟨true⟩ } rfl
    ⟨1, 0, 0⟩ ⟨0, 0, 1⟩ ⟨0, 1, 0⟩ ⟨1, 1, 1⟩ 2 9 true false true false

/-! ## The draw scale stays positive -/

theorem is_positive_pos (E : Env) (x : ℚ) (h : is_positive E x = true) : 0 < x :=
  E.positive_pos x h

theorem pull_scale_scale_pos (E : Env) (t f : ℚ) (tm : TM) :
    0 < (pull_scale E t f tm).new_draw_text_scale := by
  unfold pull_scale
  dsimp only
  split_ifs with h
  · exact is_positive_pos E _ h
  · exact one_pos

theorem undo_flip_scale (E : Env) (D : DrawScale) :
    (undo_flip E D).new_draw_text_scale = D.new_draw_text_scale ∧
      (undo_flip E D).divs = D.divs := by
  unfold undo_flip
  split_ifs <;> exact ⟨rfl, rfl⟩

theorem factor_draw_scale_scale_pos (E : Env) (t f : ℚ) (tm : TM) :
    0 < (factor_draw_scale E t f tm).new_draw_text_scale := by
  unfold factor_draw_scale
  rw [(undo_flip_scale E _).1]
  exact pull_scale_scale_pos E t f tm

theorem check_rescale_font_scale_pos (E : Env) (S : CheckState) (h : 0 < S.draw_text_scale) :
    0 < (check_rescale_font E S).draw_text_scale := by
  have hp := factor_draw_scale_scale_pos E S.text_scale_factor2 S.cur_font_size S.cur_text_tm
  unfold check_rescale_font store_transform_matrix store_font_size store_draw_text_scale
  dsimp only
  split_ifs <;> first | exact h | exact hp

theorem check_steps_scale_pos (E : Env) (state : GfxState) :
    ∀ f ∈ check_steps E state, ∀ S S1, f S = some S1 →
      (0 < S.draw_text_scale → 0 < S1.draw_text_scale) := by
  refine check_steps_rel E state (fun S S1 => 0 < S.draw_text_scale → 0 < S1.draw_text_scale)
    (fun _ h => h) ?_ ?_ ?_ (check_rescale_font_scale_pos E) ?_ ?_ ?_ ?_ ?_ ?_
  all_goals intros
  all_goals simp only [check_text_pos, check_font, check_text_tm, check_position,
    check_letter_space, check_word_space, store_fill_color, store_stroke_color, check_rise]
  all_goals split_ifs <;> exact fun h => h

theorem check_state_change_scale_pos (E : Env) (state : GfxState) (R R1 : HTMLRenderer)
    (h : 0 < R.draw_text_scale) (hrun : check_state_change E state R = some R1) :
    0 < R1.draw_text_scale := by
  rw [check_state_change_eq_run] at hrun
  cases h10 : run_steps (check_steps E state) (check_begin R) with
  | none => simp [h10] at hrun
  | some S10 =>
    rw [h10] at hrun
    cases Option.some.inj hrun
    exact run_steps_rel (fun S S1 => 0 < S.draw_text_scale → 0 < S1.draw_text_scale)
      (fun _ h => h) (fun _ _ _ h1 h2 h => h2 (h1 h)) _ (check_steps_scale_pos E state) _ _ h10 h

theorem prepare_text_line_scale (E : Env) (state : GfxState) (R : HTMLRenderer) :
    (prepare_text_line E state R).draw_text_scale = R.draw_text_scale := by
  unfold prepare_text_line close_text_line
  dsimp only
  split_ifs <;> rfl

theorem close_text_line_scale (R : HTMLRenderer) :
    (close_text_line R).draw_text_scale = R.draw_text_scale := by
  unfold close_text_line
  split_ifs <;> rfl

theorem prepare_text_line_divisors (E : Env) (state : GfxState) (R : HTMLRenderer) :
    ∃ l, (prepare_text_line E state R).div_log = R.div_log ++ l ∧
      ∀ p ∈ l, p = (DivSite.by_draw_text_scale, R.draw_text_scale) := by
  unfold prepare_text_line close_text_line
  dsimp only
  split_ifs
  all_goals first
    | exact ⟨[], (List.append_nil _).symm, fun p hp => absurd hp (List.not_mem_nil p)⟩
    | exact ⟨[(DivSite.by_draw_text_scale, R.draw_text_scale)], rfl,
        fun p hp => List.mem_singleton.mp hp⟩

theorem reachable_scale_pos (E : Env) (R : HTMLRenderer) (h : Reachable E R) :
    0 < R.draw_text_scale := by
  induction h with
  | reset R => exact one_pos
  | check g R R1 _ hrun ih => exact check_state_change_scale_pos E g R R1 ih hrun
  | prepare g R _ ih => rw [prepare_text_line_scale]; exact ih
  | close R _ ih => rw [close_text_line_scale]; exact ih
  | _ => assumption

/-- C6: draw_text_scale > 0 is an invariant of the renderer. It holds after reset_state; each
update callback, check_state_change (for every GfxState and every text_scale_factor2),
prepare_text_line and close_text_line preserve it; hence every state reached from reset_state
has draw_text_scale > 0, in particular whenever a line is open, and every division that
prepare_text_line executes divides by the positive draw_text_scale. -/
theorem draw_text_scale_positive (E : Env) :
    (∀ R, 0 < (reset_state E R).draw_text_scale) ∧
    (∀ g R, 0 < R.draw_text_scale →
      0 < (updateAll g R).draw_text_scale ∧ 0 < (updateRise g R).draw_text_scale ∧
      0 < (updateTextPos g R).draw_text_scale ∧
      (∀ shift, 0 < (updateTextShift g shift R).draw_text_scale) ∧
      0 < (updateFont g R).draw_text_scale ∧
      (∀ m11 m12 m21 m22 m31 m32,
        0 < (updateCTM g m11 m12 m21 m22 m31 m32 R).draw_text_scale) ∧
      0 < (updateTextMat g R).draw_text_scale ∧ 0 < (updateHorizScaling g R).draw_text_scale ∧
      0 < (updateCharSpace g R).draw_text_scale ∧ 0 < (updateWordSpace g R).draw_text_scale ∧
      0 < (updateRender g R).draw_text_scale ∧
      0 < (updateFillColorSpace g R).draw_text_scale ∧
      0 < (updateStrokeColorSpace g R).draw_text_scale ∧
      0 < (updateFillColor g R).draw_text_scale ∧
      0 < (updateStrokeColor g R).draw_text_scale) ∧
    (∀ g R R1, 0 < R.draw_text_scale → check_state_change E g R = some R1 →
      0 < R1.draw_text_scale) ∧
    (∀ g R, valid_render g → ∃ R1, check_state_change E g R = some R1) ∧
    (∀ g R, 0 < R.draw_text_scale → 0 < (prepare_text_line E g R).draw_text_scale) ∧
    (∀ R, 0 < R.draw_text_scale → 0 < (close_text_line R).draw_text_scale) ∧
    (∀ R, Reachable E R → 0 < R.draw_text_scale) ∧
    (∀ R, Reachable E R → R.line_opened = true → 0 < R.draw_text_scale) ∧
    (∀ g R, Reachable E R → ∃ l, (prepare_text_line E g R).div_log = R.div_log ++ l ∧
      ∀ p ∈ l, p.2 = R.draw_text_scale ∧ p.2 ≠ 0) := by
  refine ⟨fun _ => one_pos, ?_, check_state_change_scale_pos E, ?_, ?_, ?_,
    reachable_scale_pos E, fun R h _ => reachable_scale_pos E R h, ?_⟩
  · intro g R h
    exact ⟨h, h, h, fun _ => h, h, fun _ _ _ _ _ _ => h, h, h, h, h, h, h, h, h, h⟩
  · intro g R hr
    exact check_state_change_total E g hr R
  · intro g R h
    rw [prepare_text_line_scale]
    exact h
  · intro R h
    rw [close_text_line_scale]
    exact h
  · intro g R h
    obtain ⟨l, hl, hp⟩ := prepare_text_line_divisors E g R
    refine ⟨l, hl, fun p hpl => ?_⟩
    rw [hp p hpl]
    exact ⟨rfl, (reachable_scale_pos E R h).ne'⟩

/-! ## Members that the later blocks leave alone -/

/-- The blocks after the position block do not write the drawing position, the line buffer or
the division log. -/
theorem after_position_keeps (E : Env) (state : GfxState) (S S1 : CheckState)
    (hrun : run_steps ((check_steps E state).drop 5) S = some S1) :
    S1.draw_tx = S.draw_tx ∧ S1.draw_ty = S.draw_ty ∧
      S1.text_line_buf = S.text_line_buf ∧ S1.div_log = S.div_log := by
  refine drop_steps_rel E state 5
    (fun S S1 => S1.draw_tx = S.draw_tx ∧ S1.draw_ty = S.draw_ty ∧
      S1.text_line_buf = S.text_line_buf ∧ S1.div_log = S.div_log)
    (fun _ => ⟨rfl, rfl, rfl, rfl⟩)
    (fun _ _ _ h1 h2 => ⟨h2.1.trans h1.1, h2.2.1.trans h1.2.1, h2.2.2.1.trans h1.2.2.1,
      h2.2.2.2.trans h1.2.2.2⟩)
    ?_ ?_ ?_ ?_ ?_ ?_ ?_ ?_ ?_ ?_ S S1 hrun
  all_goals intro hk
  all_goals first | (exfalso; omega) | skip
  all_goals intros
  all_goals simp only [check_letter_space, check_word_space, store_fill_color,
    store_stroke_color, check_rise]
  all_goals split_ifs <;> exact ⟨rfl, rfl, rfl, rfl⟩

/-- The first three blocks do not write the members that the rescaling and position blocks
compute. -/
theorem before_rescale_keeps (E : Env) (state : GfxState) (R : HTMLRenderer) :
    (check_text_tm E state (check_font E state (check_text_pos
        (check_begin R)))).cur_html_state.font_size = R.cur_html_state.font_size ∧
    (check_text_tm E state (check_font E state (check_text_pos
        (check_begin R)))).cur_html_state.transform_matrix =
      R.cur_html_state.transform_matrix ∧
    (check_text_tm E state (check_font E state (check_text_pos
        (check_begin R)))).draw_text_scale = R.draw_text_scale ∧
    (check_text_tm E state (check_font E state (check_text_pos
        (check_begin R)))).draw_tx = R.draw_tx ∧
    (check_text_tm E state (check_font E state (check_text_pos
        (check_begin R)))).draw_ty = R.draw_ty ∧
    (check_text_tm E state (check_font E state (check_text_pos
        (check_begin R)))).text_line_buf = R.text_line_buf ∧
    (check_text_tm E state (check_font E state (check_text_pos
        (check_begin R)))).div_log = R.div_log ∧
    (check_text_tm E state (check_font E state (check_text_pos
        (check_begin R)))).draw_text_scale_changed = false := by
  have k1 : ∀ S : CheckState,
      (check_text_pos S).cur_html_state.font_size = S.cur_html_state.font_size ∧
      (check_text_pos S).cur_html_state.transform_matrix = S.cur_html_state.transform_matrix ∧
      (check_text_pos S).draw_text_scale = S.draw_text_scale ∧
      (check_text_pos S).draw_tx = S.draw_tx ∧ (check_text_pos S).draw_ty = S.draw_ty ∧
      (check_text_pos S).text_line_buf = S.text_line_buf ∧
      (check_text_pos S).div_log = S.div_log ∧
      (check_text_pos S).draw_text_scale_changed = S.draw_text_scale_changed := by
    intro S
    simp only [check_text_pos]
    split_ifs <;> exact ⟨rfl, rfl, rfl, rfl, rfl, rfl, rfl, rfl⟩
  have k2 : ∀ S : CheckState,
      (check_font E state S).cur_html_state.font_size = S.cur_html_state.font_size ∧
      (check_font E state S).cur_html_state.transform_matrix =
        S.cur_html_state.transform_matrix ∧
      (check_font E state S).draw_text_scale = S.draw_text_scale ∧
      (check_font E state S).draw_tx = S.draw_tx ∧ (check_font E state S).draw_ty = S.draw_ty ∧
      (check_font E state S).text_line_buf = S.text_line_buf ∧
      (check_font E state S).div_log = S.div_log ∧
      (check_font E state S).draw_text_scale_changed = S.draw_text_scale_changed := by
    intro S
    simp only [check_font]
    split_ifs <;> exact ⟨rfl, rfl, rfl, rfl, rfl, rfl, rfl, rfl⟩
  have k3 : ∀ S : CheckState,
      (check_text_tm E state S).cur_html_state.font_size = S.cur_html_state.font_size ∧
      (check_text_tm E state S).cur_html_state.transform_matrix =
        S.cur_html_state.transform_matrix ∧
      (check_text_tm E state S).draw_text_scale = S.draw_text_scale ∧
      (check_text_tm E state S).draw_tx = S.draw_tx ∧
      (check_text_tm E state S).draw_ty = S.draw_ty ∧
      (check_text_tm E state S).text_line_buf = S.text_line_buf ∧
      (check_text_tm E state S).div_log = S.div_log ∧
      (check_text_tm E state S).draw_text_scale_changed = S.draw_text_scale_changed := by
    intro S
    simp only [check_text_tm]
    split_ifs <;> exact ⟨rfl, rfl, rfl, rfl, rfl, rfl, rfl, rfl⟩
  obtain ⟨a1, a2, a3, a4, a5, a6, a7, a8⟩ := k1 (check_begin R)
  obtain ⟨b1, b2, b3, b4, b5, b6, b7, b8⟩ := k2 (check_text_pos (check_begin R))
  obtain ⟨c1, c2, c3, c4, c5, c6, c7, c8⟩ :=
    k3 (check_font E state (check_text_pos (check_begin R)))
  exact ⟨c1.trans (b1.trans a1), c2.trans (b2.trans a2), c3.trans (b3.trans a3),
    c4.trans (b4.trans a4), c5.trans (b5.trans a5), c6.trans (b6.trans a6),
    c7.trans (b7.trans a7), c8.trans (b8.trans a8)⟩

/-- The rescaling block does not write the matrix, the PDF font size, the drawing position or
the line buffer. -/
theorem check_rescale_font_keeps (E : Env) (S : CheckState) :
    (check_rescale_font E S).cur_font_size = S.cur_font_size ∧
    (check_rescale_font E S).cur_text_tm = S.cur_text_tm ∧
    (check_rescale_font E S).draw_tx = S.draw_tx ∧
    (check_rescale_font E S).draw_ty = S.draw_ty ∧
    (check_rescale_font E S).text_line_buf = S.text_line_buf ∧
    (check_rescale_font E S).old_tm = S.old_tm ∧
    (check_rescale_font E S).need_recheck_position = S.need_recheck_position := by
  simp only [check_rescale_font, store_transform_matrix, store_font_size, store_draw_text_scale]
  split_ifs <;> exact ⟨rfl, rfl, rfl, rfl, rfl, rfl, rfl⟩

/-- The whole call in terms of the state after the first `k` blocks. -/
theorem check_state_change_from (E : Env) (state : GfxState) (R R1 : HTMLRenderer) (k : Nat)
    (Sk : CheckState) (hk : check_upto k E state R = some Sk)
    (hrun : check_state_change E state R = some R1) :
    ∃ S10, run_steps ((check_steps E state).drop k) Sk = some S10 ∧
      R1 = reset_state_change S10.toHTMLRenderer := by
  rw [check_state_change_split E state R k Sk hk] at hrun
  cases h10 : run_steps ((check_steps E state).drop k) Sk with
  | none => simp [h10] at hrun
  | some S10 =>
    rw [h10] at hrun
    exact ⟨S10, rfl, (Option.some.inj hrun).symm⟩

/-! ## Totality and the divisions -/

/-- Under the bare reading `s > 0` of `is_positive` the guard of line 226 lets a scale through
that is epsilon-equal to zero: with tolerance 1/1000 and a CTM that scales the second column by
1/2000 (CTM flag dirty, rendering mode 0, text_scale_factor2 = 1) the call divides by
new_draw_text_scale = 1/2000. -/
theorem bare_reading_divides_by_tiny_scale :
    valid_render { demo_gfx with CTM := ⟨1, 0, 0, 1 / 2000, 0, 0⟩ } ∧
    demo_renderer.text_scale_factor2 ≠ 0 ∧
    (check_state_change demo_env { demo_gfx with CTM := ⟨1, 0, 0, 1 / 2000, 0, 0⟩ }
        { demo_renderer with ctm_changed := true }).map (fun R1 => R1.div_log) =
      some [(DivSite.by_text_scale_factor2, 1), (DivSite.by_new_draw_text_scale, 1 / 2000)] ∧
    equal demo_env (1 / 2000) 0 = true := by
  refine ⟨⟨by decide, by decide⟩, by norm_num [demo_renderer], ?_, ?_⟩
  · rw [check_state_change_eq_blocks]
    norm_num [check_begin, check_text_pos, check_font, check_text_tm, check_rescale_font,
      store_draw_text_scale, store_font_size, store_transform_matrix, factor_draw_scale,
      pull_scale, undo_flip, new_text_tm,
      check_position, merge_position, check_letter_space, check_word_space, check_fill_color,
      check_stroke_color, check_rise, demo_env, demo_gfx, demo_renderer, equal, is_positive,
      tm_equal_four, tm_equal_six, ID_MATRIX, TM.map4, reset_state_change, abs_of_pos]
  · norm_num [equal, demo_env, abs_of_pos]

theorem demo_env_eps_EPS_pos : 0 < demo_env_eps.EPS := by
  norm_num [demo_env_eps]

theorem nls_max_SPAN_lt_DIV {a : NewLineState} (h : a < NewLineState.NLS_DIV) :
    max a NewLineState.NLS_SPAN < NewLineState.NLS_DIV := by
  cases a
  · decide
  · decide
  · exact absurd h (by decide)

/-- The blocks after the position block raise the verdict to NLS_SPAN at most. -/
theorem after_position_below_div (E : Env) (state : GfxState) (S S1 : CheckState)
    (hrun : run_steps ((check_steps E state).drop 5) S = some S1)
    (h : S.new_line_state < NewLineState.NLS_DIV) :
    S1.new_line_state < NewLineState.NLS_DIV := by
  refine drop_steps_rel E state 5
    (fun S S1 => S.new_line_state < NewLineState.NLS_DIV →
      S1.new_line_state < NewLineState.NLS_DIV)
    (fun _ h => h) (fun _ _ _ h1 h2 h => h2 (h1 h))
    ?_ ?_ ?_ ?_ ?_ ?_ ?_ ?_ ?_ ?_ S S1 hrun h
  all_goals intro hk
  all_goals first | (exfalso; omega) | skip
  all_goals intros
  all_goals simp only [check_letter_space, check_word_space, store_fill_color,
    store_stroke_color, check_rise]
  all_goals split_ifs <;> first | exact fun h => h | exact nls_max_SPAN_lt_DIV

theorem merge_position_degenerate (E : Env) (hE : 0 < E.EPS) (old_tm cur_text_tm : TM)
    (dtx dty ctx cty : ℚ) (h0 : old_tm.e0 = 0) (h1 : old_tm.e1 = 0) :
    merge_position E old_tm cur_text_tm dtx dty ctx cty =
      if tm_equal E old_tm cur_text_tm 4 &&
          (equal E (merge_lhs1 old_tm cur_text_tm dtx dty ctx cty) 0 &&
            equal E (merge_lhs2 old_tm cur_text_tm dtx dty ctx cty) 0) then
        { merged := true, dx := 0, divs := [] }
      else { merged := false, dx := 0, divs := [] } := by
  unfold merge_position
  simp only [h0, h1, zero_mul, equal_self E hE, if_true, Bool.not_true, Bool.false_eq_true,
    if_false]
  cases tm_equal E old_tm cur_text_tm 4 <;>
    cases equal E (merge_lhs1 old_tm cur_text_tm dtx dty ctx cty) 0 <;>
    cases equal E (merge_lhs2 old_tm cur_text_tm dtx dty ctx cty) 0 <;> rfl

/-- The state in which the position block runs. -/
theorem check_upto_four (E : Env) (state : GfxState) (R : HTMLRenderer) :
    check_upto 4 E state R = some (check_rescale_font E (check_text_tm E state
      (check_font E state (check_text_pos (check_begin R))))) := rfl

theorem check_upto_five (E : Env) (state : GfxState) (R : HTMLRenderer) :
    check_upto 5 E state R = some (check_position E (check_rescale_font E
      (check_text_tm E state (check_font E state (check_text_pos (check_begin R)))))) := rfl

/-- The final verdict and line buffer in terms of what the position block did. -/
theorem check_state_change_position (E : Env) (state : GfxState) (R R1 : HTMLRenderer)
    (S4 : CheckState) (h4 : check_upto 4 E state R = some S4)
    (hrun : check_state_change E state R = some R1) :
    S4.text_line_buf = R.text_line_buf ∧ S4.draw_tx = R.draw_tx ∧ S4.draw_ty = R.draw_ty ∧
    R1.text_line_buf = (check_position E S4).text_line_buf ∧
    R1.draw_tx = (check_position E S4).draw_tx ∧ R1.draw_ty = (check_position E S4).draw_ty ∧
    (check_position E S4).new_line_state ≤ R1.new_line_state ∧
    ((check_position E S4).new_line_state < NewLineState.NLS_DIV →
      R1.new_line_state < NewLineState.NLS_DIV) := by
  rw [check_upto_four] at h4
  cases Option.some.inj h4
  obtain ⟨S10, h10, rfl⟩ := check_state_change_from E state R R1 5 _ (check_upto_five E state R)
    hrun
  obtain ⟨k1, k2, k3, _⟩ := after_position_keeps E state _ _ h10
  obtain ⟨_, _, _, b4, b5, b6, _⟩ := before_rescale_keeps E state R
  obtain ⟨_, _, r3, r4, r5, _⟩ := check_rescale_font_keeps E
    (check_text_tm E state (check_font E state (check_text_pos (check_begin R))))
  exact ⟨r5.trans b6, r3.trans b4, r4.trans b5, k3, k1, k2,
    run_part_mono E state _ (fun f hf => List.mem_of_mem_drop hf) _ _ h10,
    after_position_below_div E state _ _ h10⟩

theorem nls_NONE_lt_DIV : NewLineState.NLS_NONE < NewLineState.NLS_DIV := by
  decide

theorem nls_SPAN_lt_DIV : NewLineState.NLS_SPAN < NewLineState.NLS_DIV := by
  decide

/-- C9, refuted as stated: with old_tm[0] = old_tm[1] = 0 the position block need not force a
new block. From `flat_renderer` (matrix [0,0,0,1,0,0], text-position flag dirty, position
unchanged) the call reaches the position block with the recheck needed, verdict NLS_NONE and
old_tm[0] = old_tm[1] = 0, and it ends with verdict NLS_NONE and one offset of width 0
appended. -/
theorem degenerate_old_tm_counterexample :
    (check_upto 4 demo_env demo_gfx flat_renderer).map
        (fun S => (S.need_recheck_position, S.new_line_state, S.old_tm.e0, S.old_tm.e1)) =
      some (true, NewLineState.NLS_NONE, 0, 0) ∧
    (check_state_change demo_env demo_gfx flat_renderer).map
        (fun R1 => (R1.new_line_state, R1.text_line_buf)) =
      some (NewLineState.NLS_NONE, flat_renderer.text_line_buf ++ [BufOp.append_offset 0]) := by
  constructor
  · rw [check_upto_four]
    norm_num [check_begin, check_text_pos, check_font, check_text_tm, check_rescale_font,
      demo_env, demo_gfx, demo_renderer, flat_renderer]
  · rw [check_state_change_eq_blocks]
    norm_num [check_begin, check_text_pos, check_font, check_text_tm, check_rescale_font,
      check_position, merge_position, merge_lhs1, merge_lhs2,
      check_letter_space, check_word_space, check_fill_color,
      check_stroke_color, check_rise, demo_env, demo_gfx, demo_renderer, flat_renderer, equal,
      tm_equal_four, reset_state_change, nls_NONE_lt_DIV]

/-- C9, amended: when check_state_change reaches the position block with the position recheck
needed, the verdict below NLS_DIV and old_tm[0] = old_tm[1] = 0, the final verdict is NLS_DIV
and no offset is appended, unless the 4-prefix of the current matrix is tm_equal to old_tm and
both lhs1 and lhs2 are epsilon-zero; in that free case the position block leaves the verdict as
it is, the final verdict is below NLS_DIV and exactly one offset, of width 0, is appended. -/
theorem degenerate_old_tm (E : Env) (hE : 0 < E.EPS) (state : GfxState) (R : HTMLRenderer)
    (hr : valid_render state) (S4 : CheckState) (h4 : check_upto 4 E state R = some S4)
    (hneed : S4.need_recheck_position = true)
    (hnls : S4.new_line_state < NewLineState.NLS_DIV)
    (h0 : S4.old_tm.e0 = 0) (h1 : S4.old_tm.e1 = 0) :
    ∃ R1, check_state_change E state R = some R1 ∧
      ((tm_equal E S4.old_tm S4.cur_text_tm 4 &&
          (equal E (merge_lhs1 S4.old_tm S4.cur_text_tm S4.draw_tx S4.draw_ty S4.cur_tx
              S4.cur_ty) 0 &&
            equal E (merge_lhs2 S4.old_tm S4.cur_text_tm S4.draw_tx S4.draw_ty S4.cur_tx
              S4.cur_ty) 0)) = false →
        R1.new_line_state = NewLineState.NLS_DIV ∧ R1.text_line_buf = R.text_line_buf) ∧
      ((tm_equal E S4.old_tm S4.cur_text_tm 4 &&
          (equal E (merge_lhs1 S4.old_tm S4.cur_text_tm S4.draw_tx S4.draw_ty S4.cur_tx
              S4.cur_ty) 0 &&
            equal E (merge_lhs2 S4.old_tm S4.cur_text_tm S4.draw_tx S4.draw_ty S4.cur_tx
              S4.cur_ty) 0)) = true →
        (check_position E S4).new_line_state = S4.new_line_state ∧
        R1.new_line_state < NewLineState.NLS_DIV ∧
        R1.text_line_buf = R.text_line_buf ++ [BufOp.append_offset 0]) := by
  obtain ⟨R1, hR1⟩ := check_state_change_total E state hr R
  obtain ⟨p1, _, _, p4, _, _, p7, p8⟩ := check_state_change_position E state R R1 S4 h4 hR1
  have hm := merge_position_degenerate E hE S4.old_tm S4.cur_text_tm S4.draw_tx S4.draw_ty
    S4.cur_tx S4.cur_ty h0 h1
  refine ⟨R1, hR1, ?_, ?_⟩
  · intro hc
    rw [hc] at hm
    have hres := check_position_not_merged E S4 hneed hnls (by rw [hm]; rfl)
    exact ⟨nls_eq_DIV_of_le (hres.1 ▸ p7), by rw [p4, hres.2.1, p1]⟩
  · intro hc
    rw [hc] at hm
    have hres := check_position_merged E S4 hneed hnls (by rw [hm]; rfl)
    refine ⟨hres.1, p8 (by rw [hres.1]; exact hnls), ?_⟩
    rw [p4, hres.2.1, p1, hm]
    simp

theorem degenerate_old_tm_witness :
    ∃ R1, check_state_change demo_env demo_gfx flat_renderer = some R1 ∧
      ((tm_equal demo_env flat_renderer.cur_text_tm flat_renderer.cur_text_tm 4 &&
          (equal demo_env (merge_lhs1 flat_renderer.cur_text_tm flat_renderer.cur_text_tm
              0 0 0 0) 0 &&
            equal demo_env (merge_lhs2 flat_renderer.cur_text_tm flat_renderer.cur_text_tm
              0 0 0 0) 0)) = false →
        R1.new_line_state = NewLineState.NLS_DIV ∧ R1.text_line_buf = []) ∧
      ((tm_equal demo_env flat_renderer.cur_text_tm flat_renderer.cur_text_tm 4 &&
          (equal demo_env (merge_lhs1 flat_renderer.cur_text_tm flat_renderer.cur_text_tm
              0 0 0 0) 0 &&
            equal demo_env (merge_lhs2 flat_renderer.cur_text_tm flat_renderer.cur_text_tm
              0 0 0 0) 0)) = true →
        (check_position demo_env
          { check_begin flat_renderer with
            need_recheck_position := true
            old_tm := flat_renderer.cur_text_tm }).new_line_state = NewLineState.NLS_NONE ∧
        R1.new_line_state < NewLineState.NLS_DIV ∧
        R1.text_line_buf = [] ++ [BufOp.append_offset 0]) :=
  degenerate_old_tm demo_env demo_env_EPS_pos demo_gfx flat_renderer ⟨by decide, by decide⟩
    { check_begin flat_renderer with
      need_recheck_position := true
      old_tm := flat_renderer.cur_text_tm }
    (by
      rw [check_upto_four]
      norm_num [check_begin, check_text_pos, check_font, check_text_tm, check_rescale_font,
        demo_env, demo_gfx, demo_renderer, flat_renderer])
    rfl (by decide) rfl rfl

/-! ## Text shifts -/

/-- A call leaves the configuration, `line_opened` and the tracked text position alone. -/
theorem check_state_change_frame (E : Env) (state : GfxState) (R R1 : HTMLRenderer)
    (hrun : check_state_change E state R = some R1) :
    R1.param = R.param ∧ R1.text_scale_factor2 = R.text_scale_factor2 ∧
      R1.line_opened = R.line_opened ∧ R1.cur_tx = R.cur_tx ∧ R1.cur_ty = R.cur_ty := by
  obtain ⟨S10, h10, rfl⟩ := check_state_change_from E state R R1 0 (check_begin R) rfl hrun
  have hf := run_part_frame E state _ (fun f hf => List.mem_of_mem_drop hf) _ _ h10
  exact ⟨hf.param, hf.text_scale_factor2, hf.line_opened, hf.cur_tx, hf.cur_ty⟩

/-- On an open line whose verdict is NLS_NONE and whose drawing position is the text position,
`prepare_text_line` changes nothing. -/
theorem prepare_text_line_aligned (E : Env) (hE : 0 < E.EPS) (state : GfxState)
    (R : HTMLRenderer) (hopen : R.line_opened = true)
    (hn : R.new_line_state = NewLineState.NLS_NONE) (hx : R.draw_tx = R.cur_tx) :
    prepare_text_line E state R = R := by
  have hz : equal E ((R.cur_tx - R.draw_tx) * R.draw_text_scale) 0 = true := by
    rw [hx, sub_self, zero_mul]
    exact equal_self E hE 0
  cases R
  simp only at hopen hn hx hz
  subst hopen hn hx
  simp [prepare_text_line, equal_self E hE]

/-- The text-shift merge in exact arithmetic. From a state with an open line, draw_tx = cur_tx,
draw_ty = cur_ty, no dirty flag and a current text matrix whose entry [0] or [1] is not
epsilon-zero, under a positive tolerance and with every operation exact, the sequence
updateTextShift(shift); check_state_change; prepare_text_line decreases cur_tx by
shift * 0.001 * fontSize * horizScaling, appends in total exactly one offset, of width
(-shift * 0.001 * fontSize * horizScaling) * draw_text_scale (for shift 500, size 10, scale 1:
-5 * draw_text_scale), does not flush the line (the verdict is NLS_NONE, not NLS_DIV) and ends
with draw_tx = cur_tx on an open line. -/
theorem text_shift_merge (E : Env) (hE : 0 < E.EPS) (state : GfxState) (shift : ℚ)
    (R : HTMLRenderer) (hopen : R.line_opened = true)
    (hx : R.draw_tx = R.cur_tx) (hy : R.draw_ty = R.cur_ty)
    (h0 : R.all_changed = false) (h1 : R.rise_changed = false)
    (_h2 : R.text_pos_changed = false) (h3 : R.font_changed = false)
    (h4 : R.ctm_changed = false) (h5 : R.text_mat_changed = false)
    (h6 : R.hori_scale_changed = false) (h7 : R.letter_space_changed = false)
    (h8 : R.word_space_changed = false) (h9 : R.fill_color_changed = false)
    (h10 : R.stroke_color_changed = false)
    (hnd : equal E R.cur_text_tm.e0 0 = false ∨ equal E R.cur_text_tm.e1 0 = false) :
    ∃ R1, check_state_change E state (updateTextShift state shift R) = some R1 ∧
      R1.new_line_state = NewLineState.NLS_NONE ∧
      R1.new_line_state ≠ NewLineState.NLS_DIV ∧
      (prepare_text_line E state R1).cur_tx =
        R.cur_tx - shift * (1 / 1000) * state.FontSize * state.HorizScaling ∧
      (prepare_text_line E state R1).text_line_buf = R.text_line_buf ++
        [BufOp.append_offset
          (-(shift * (1 / 1000) * state.FontSize * state.HorizScaling) * R.draw_text_scale)] ∧
      (prepare_text_line E state R1).draw_tx = (prepare_text_line E state R1).cur_tx ∧
      (prepare_text_line E state R1).line_opened = true ∧
      (shift = 500 → state.FontSize = 10 → state.HorizScaling = 1 →
        (prepare_text_line E state R1).text_line_buf = R.text_line_buf ++
          [BufOp.append_offset (-5 * R.draw_text_scale)]) := by
  obtain ⟨R1, hR1, hs, hc, hcase⟩ := text_pos_only_result E hE state
    (updateTextShift state shift R) h0 h1 rfl h3 h4 h5 h6 h7 h8 h9 h10 hy.symm
  have hok : horizontal_merge_ok E (updateTextShift state shift R).cur_text_tm
      ((updateTextShift state shift R).cur_tx - (updateTextShift state shift R).draw_tx)
      = true := by
    unfold horizontal_merge_ok
    show (!equal E R.cur_text_tm.e0 0 || !equal E R.cur_text_tm.e1 0 || _) = true
    rcases hnd with h | h <;> simp [h]
  have hif : (!equal E R.cur_text_tm.e0 0 || !equal E R.cur_text_tm.e1 0) = true := by
    rcases hnd with h | h <;> simp [h]
  rcases hcase with ⟨_, hn, hb, hdx, _⟩ | ⟨hno, _⟩
  · have hfr := check_state_change_frame E state _ R1 hR1
    have hprep : prepare_text_line E state R1 = R1 :=
      prepare_text_line_aligned E hE state R1 (hfr.2.2.1.trans hopen) hn (hdx.trans hc.symm)
    have hbuf : R1.text_line_buf = R.text_line_buf ++
        [BufOp.append_offset
          (-(shift * (1 / 1000) * state.FontSize * state.HorizScaling) *
            R.draw_text_scale)] := by
      rw [hb]
      show R.text_line_buf ++ [BufOp.append_offset ((if (!equal E R.cur_text_tm.e0 0 ||
        !equal E R.cur_text_tm.e1 0) = true then
          R.cur_tx - shift * (1 / 1000) * state.FontSize * state.HorizScaling - R.draw_tx
        else 0) * R.draw_text_scale)] = _
      rw [if_pos hif, hx]
      congr 3
      ring
    refine ⟨R1, hR1, hn, by rw [hn]; decide, ?_, ?_, ?_, ?_, ?_⟩
    · rw [hprep, hc]
      rfl
    · rw [hprep, hbuf]
    · rw [hprep, hdx, hc]
    · rw [hprep]
      exact hfr.2.2.1.trans hopen
    · intro e1 e2 e3
      rw [hprep, hbuf, e1, e2, e3]
      norm_num
  · rw [hok] at hno
    exact Bool.noConfusion hno

theorem text_shift_merge_witness :
    ∃ R1, check_state_change demo_env demo_gfx (updateTextShift demo_gfx 500 demo_renderer) =
        some R1 ∧
      R1.new_line_state = NewLineState.NLS_NONE ∧
      R1.new_line_state ≠ NewLineState.NLS_DIV ∧
      (prepare_text_line demo_env demo_gfx R1).cur_tx = 0 - 500 * (1 / 1000) * 10 * 1 ∧
      (prepare_text_line demo_env demo_gfx R1).text_line_buf = [] ++
        [BufOp.append_offset (-(500 * (1 / 1000) * 10 * 1) * 1)] ∧
      (prepare_text_line demo_env demo_gfx R1).draw_tx =
        (prepare_text_line demo_env demo_gfx R1).cur_tx ∧
      (prepare_text_line demo_env demo_gfx R1).line_opened = true ∧
      ((500 : ℚ) = 500 → (10 : ℚ) = 10 → (1 : ℚ) = 1 →
        (prepare_text_line demo_env demo_gfx R1).text_line_buf = [] ++
          [BufOp.append_offset (-5 * 1)]) :=
  text_shift_merge demo_env demo_env_EPS_pos demo_gfx 500 demo_renderer rfl rfl rfl
    rfl rfl rfl rfl rfl rfl rfl rfl rfl rfl rfl
    (Or.inl (by norm_num [equal, demo_env, demo_renderer, ID_MATRIX]))

/-! ## Members kept by the later blocks -/

theorem KeptFrom.kept_refl (k : Nat) (S : CheckState) : KeptFrom k S S := by
  constructor <;> intros <;> rfl

theorem KeptFrom.kept_trans {k : Nat} {a b c : CheckState} (h1 : KeptFrom k a b)
    (h2 : KeptFrom k b c) : KeptFrom k a c := by
  constructor
  · exact fun h => (h2.font_info h).trans (h1.font_info h)
  · exact fun h => (h2.cur_font_size h).trans (h1.cur_font_size h)
  · exact fun h => (h2.cur_text_tm h).trans (h1.cur_text_tm h)
  · exact fun h => (h2.draw_text_scale h).trans (h1.draw_text_scale h)
  · exact fun h => (h2.font_size h).trans (h1.font_size h)
  · exact fun h => (h2.transform_matrix h).trans (h1.transform_matrix h)
  · exact fun h => (h2.draw_text_scale_changed h).trans (h1.draw_text_scale_changed h)
  · exact fun h => (h2.draw_tx h).trans (h1.draw_tx h)
  · exact fun h => (h2.draw_ty h).trans (h1.draw_ty h)
  · exact fun h => (h2.text_line_buf h).trans (h1.text_line_buf h)
  · exact fun h => (h2.div_log h).trans (h1.div_log h)
  · exact fun h => (h2.letter_space h).trans (h1.letter_space h)
  · exact fun h => (h2.word_space h).trans (h1.word_space h)
  · exact fun h => (h2.fill_color h).trans (h1.fill_color h)
  · exact fun h => (h2.stroke_color h).trans (h1.stroke_color h)
  · exact h2.x.trans h1.x
  · exact h2.y.trans h1.y

theorem run_drop_kept (E : Env) (state : GfxState) (k : Nat) (S S1 : CheckState)
    (hrun : run_steps ((check_steps E state).drop k) S = some S1) : KeptFrom k S S1 := by
  refine drop_steps_rel E state k (KeptFrom k) (KeptFrom.kept_refl k) (fun _ _ _ => KeptFrom.kept_trans)
    ?_ ?_ ?_ ?_ ?_ ?_ ?_ ?_ ?_ ?_ S S1 hrun
  all_goals intro hk
  all_goals intros
  all_goals constructor
  all_goals first
    | (intro hg; exfalso; omega)
    | (intros
       simp only [check_text_pos, check_font, check_text_tm, check_rescale_font,
         store_draw_text_scale, store_font_size, store_transform_matrix, check_position,
         check_letter_space, check_word_space, store_fill_color, store_stroke_color, check_rise]
       split_ifs <;> rfl)

/-! ## Blocks that find no change -/

theorem check_upto_frame (E : Env) (state : GfxState) (R : HTMLRenderer) (k : Nat)
    (Sk : CheckState) (hk : check_upto k E state R = some Sk) :
    Frame R Sk.toHTMLRenderer := by
  have h0 : Frame R (check_begin R).toHTMLRenderer := by constructor <;> rfl
  exact h0.frame_trans
    (run_part_frame E state _ (fun f hf => List.mem_of_mem_take hf) _ _ hk)

/-- C11: `prepare_text_line` on a closed line always opens a new block. When `line_opened` is
false, whatever verdict is stored, the result is the input with the verdict set to `NLS_DIV`,
the coordinates of `cur_html_state` set to the transform of `(CurX, CurY)`, `draw_tx`,
`draw_ty` resynchronised to `cur_tx`, `cur_ty`, exactly one snapshot of the updated
`cur_html_state` appended to the buffer (no flush, no offset) and `line_opened` true. When the
line is open and the verdict is `NLS_DIV`, the buffer receives the flush of the old line first
and the snapshot after it. -/
theorem prepare_text_line_opens_block (E : Env) (state : GfxState) (R : HTMLRenderer) :
    (R.line_opened = false →
      prepare_text_line E state R =
        { R with
          new_line_state := .NLS_DIV
          cur_html_state :=
            { R.cur_html_state with
              x := (state.transform state.CurX state.CurY).1
              y := (state.transform state.CurX state.CurY).2 }
          draw_tx := R.cur_tx
          draw_ty := R.cur_ty
          text_line_buf := R.text_line_buf ++
            [.append_state { R.cur_html_state with
              x := (state.transform state.CurX state.CurY).1
              y := (state.transform state.CurX state.CurY).2 }]
          line_opened := true }) ∧
    (R.line_opened = true → R.new_line_state = .NLS_DIV →
      (prepare_text_line E state R).text_line_buf =
        R.text_line_buf ++
          [.flush, .append_state { R.cur_html_state with
            x := (state.transform state.CurX state.CurY).1
            y := (state.transform state.CurX state.CurY).2 }] ∧
      (prepare_text_line E state R).new_line_state = .NLS_DIV ∧
      (prepare_text_line E state R).line_opened = true) := by
  constructor
  · intro hl
    simp [prepare_text_line, close_text_line, hl]
  · intro hl hn
    simp [prepare_text_line, close_text_line, hl, hn]

/-! ## Defaults after `reset_state` (C13) -/

/-- C13: `reset_state` establishes the documented defaults. Afterwards the draw scale is 1,
`cur_font_size` is 0, `cur_text_tm` and the emitted transform matrix are the identity
`[1,0,0,1,0,0]`, the emitted font is the one installed for the null font, the emitted font
size is 0, both colours are transparent, letter space, word space and rise are 0, the emitted
coordinates and the four running positions are 0, `all_changed` is true and every other
dirty flag is false. -/
theorem reset_state_defaults (E : Env) (R : HTMLRenderer) :
    (reset_state E R).draw_text_scale = 1 ∧
    (reset_state E R).cur_font_size = 0 ∧
    (reset_state E R).cur_text_tm = ID_MATRIX ∧
    (reset_state E R).cur_html_state.transform_matrix = ID_MATRIX ∧
    ID_MATRIX = ⟨1, 0, 0, 1, 0, 0⟩ ∧
    (reset_state E R).cur_html_state.font_info = E.install_font none ∧
    (reset_state E R).cur_html_state.font_size = 0 ∧
    (reset_state E R).cur_html_state.fill_color.transparent = true ∧
    (reset_state E R).cur_html_state.stroke_color.transparent = true ∧
    (reset_state E R).cur_html_state.letter_space = 0 ∧
    (reset_state E R).cur_html_state.word_space = 0 ∧
    (reset_state E R).cur_html_state.rise = 0 ∧
    (reset_state E R).cur_html_state.x = 0 ∧
    (reset_state E R).cur_html_state.y = 0 ∧
    (reset_state E R).cur_tx = 0 ∧
    (reset_state E R).cur_ty = 0 ∧
    (reset_state E R).draw_tx = 0 ∧
    (reset_state E R).draw_ty = 0 ∧
    (reset_state E R).all_changed = true ∧
    (reset_state E R).rise_changed = false ∧
    (reset_state E R).text_pos_changed = false ∧
    (reset_state E R).font_changed = false ∧
    (reset_state E R).ctm_changed = false ∧
    (reset_state E R).text_mat_changed = false ∧
    (reset_state E R).hori_scale_changed = false ∧
    (reset_state E R).letter_space_changed = false ∧
    (reset_state E R).word_space_changed = false ∧
    (reset_state E R).fill_color_changed = false ∧
    (reset_state E R).stroke_color_changed = false := by
  refine ⟨rfl, rfl, rfl, rfl, rfl, rfl, rfl, rfl, rfl, rfl, rfl, rfl, rfl, rfl, rfl, rfl, rfl,
    rfl, rfl, rfl, rfl, rfl, rfl, rfl, rfl, rfl, rfl, rfl, rfl⟩

/-! ## The dirty flags after a call (C14) -/

theorem reset_state_change_flags (R : HTMLRenderer) :
    (reset_state_change R).all_changed = false ∧
    (reset_state_change R).rise_changed = false ∧
    (reset_state_change R).text_pos_changed = false ∧
    (reset_state_change R).font_changed = false ∧
    (reset_state_change R).ctm_changed = false ∧
    (reset_state_change R).text_mat_changed = false ∧
    (reset_state_change R).hori_scale_changed = false ∧
    (reset_state_change R).letter_space_changed = false ∧
    (reset_state_change R).word_space_changed = false ∧
    (reset_state_change R).fill_color_changed = false ∧
    (reset_state_change R).stroke_color_changed = false :=
  ⟨rfl, rfl, rfl, rfl, rfl, rfl, rfl, rfl, rfl, rfl, rfl⟩

/-- Every result of the call is the image of `reset_state_change`. -/
theorem check_state_change_is_reset (E : Env) (state : GfxState) (R R1 : HTMLRenderer)
    (h : check_state_change E state R = some R1) : ∃ R0, R1 = reset_state_change R0 := by
  rw [check_state_change_eq_blocks] at h
  cases h8 : check_fill_color E state
      (check_word_space E state (check_letter_space E state (check_position E
        (check_rescale_font E (check_text_tm E state (check_font E state
          (check_text_pos (check_begin R)))))))) with
  | none => rw [h8] at h; simp at h
  | some S8 =>
    rw [h8] at h
    simp only [Option.some_bind] at h
    cases h9 : check_stroke_color E state S8 with
    | none => rw [h9] at h; simp at h
    | some S9 =>
      rw [h9] at h
      simp only [Option.some_bind, Option.some.injEq] at h
      exact ⟨_, h.symm⟩

/-- C14: `check_state_change` clears every dirty flag. Whatever the input, any renderer the
call returns has all eleven flags false; and the call does return one whenever the rendering
mode is inside the table or the fallback is on. -/
theorem check_state_change_clears_flags (E : Env) (state : GfxState) (R : HTMLRenderer) :
    (∀ R1, check_state_change E state R = some R1 →
      R1.all_changed = false ∧ R1.rise_changed = false ∧ R1.text_pos_changed = false ∧
      R1.font_changed = false ∧ R1.ctm_changed = false ∧ R1.text_mat_changed = false ∧
      R1.hori_scale_changed = false ∧ R1.letter_space_changed = false ∧
      R1.word_space_changed = false ∧ R1.fill_color_changed = false ∧
      R1.stroke_color_changed = false) ∧
    (valid_render state ∨ R.param.fallback = true →
      ∃ R1, check_state_change E state R = some R1) := by
  constructor
  · intro R1 h
    obtain ⟨R0, rfl⟩ := check_state_change_is_reset E state R R1 h
    exact reset_state_change_flags R0
  · intro hr
    exact check_state_change_returns E state R hr

/-! ## A font change between two ordinary fonts (C12) -/

/-- The font block when the id changes between two fonts that are not type 3 and the size is
unchanged. -/
theorem check_font_span (E : Env) (state : GfxState) (S : CheckState)
    (hd : (S.all_changed || S.font_changed) = true)
    (hid : (E.install_font state.Font).id ≠ S.cur_html_state.font_info.id)
    (hnew : (E.install_font state.Font).is_type3 = false)
    (hold : S.cur_html_state.font_info.is_type3 = false)
    (hsize : equal E S.cur_font_size state.FontSize = true) :
    check_font E state S =
      { S with
        new_line_state := max S.new_line_state .NLS_SPAN
        cur_html_state := { S.cur_html_state with font_info := E.install_font state.Font } } := by
  have hid1 : ((E.install_font state.Font).id == S.cur_html_state.font_info.id) = false := by
    simpa using hid
  simp [check_font, hd, hid1, hnew, hold, hsize]

/-- C12: a font change between two non-type-3 fonts yields an inline span in the same block.
If only the font flag is dirty, the installed font has an id different from the current one,
neither font is type 3 and the PDF font size is epsilon-equal to `cur_font_size`, then
`check_state_change` returns the input with the verdict `NLS_SPAN`, the emitted font replaced
by the new one and the dirty flags cleared: nothing is appended to the buffer, and every
other emitted field and every running scalar is unchanged. -/
theorem font_change_is_span (E : Env) (state : GfxState) (R : HTMLRenderer)
    (hfont : R.font_changed = true)
    (h0 : R.all_changed = false) (h1 : R.rise_changed = false)
    (h2 : R.text_pos_changed = false) (h4 : R.ctm_changed = false)
    (h5 : R.text_mat_changed = false) (h6 : R.hori_scale_changed = false)
    (h7 : R.letter_space_changed = false) (h8 : R.word_space_changed = false)
    (h9 : R.fill_color_changed = false) (h10 : R.stroke_color_changed = false)
    (hid : (E.install_font state.Font).id ≠ R.cur_html_state.font_info.id)
    (hnew : (E.install_font state.Font).is_type3 = false)
    (hold : R.cur_html_state.font_info.is_type3 = false)
    (hsize : equal E R.cur_font_size state.FontSize = true) :
    check_state_change E state R =
      some (reset_state_change
        { R with
          new_line_state := .NLS_SPAN
          cur_html_state :=
            { R.cur_html_state with font_info := E.install_font state.Font } }) := by
  rw [check_state_change_eq_blocks]
  have e1 : check_text_pos (check_begin R) = check_begin R := by
    rw [check_text_pos_eq]
    simp [check_begin, h0, h2]
  have e2 : check_font E state (check_begin R) =
      { check_begin R with
        new_line_state := .NLS_SPAN
        cur_html_state :=
          { R.cur_html_state with font_info := E.install_font state.Font } } := by
    rw [check_font_span E state (check_begin R) (by simp [check_begin, hfont]) hid hnew hold
      hsize]
    simp [check_begin]
    exact nls_NONE_le _
  rw [e1, e2, check_text_tm_skip E state _ (by simp [check_begin, h0, h4, h5, h6]),
    check_rescale_font_skip E _ (by simp [check_begin]),
    check_position_skip E _ (by simp [check_begin])]
  exact styles_skip E state _ h0 h1 h7 h8 h9 h10 rfl

theorem font_change_is_span_witness :
    check_state_change demo_env { demo_gfx with Font := some 4 }
        { demo_renderer with font_changed := true } =
      some (reset_state_change
        { ({ demo_renderer with font_changed := true } : HTMLRenderer) with
          new_line_state := .NLS_SPAN
          cur_html_state :=
            { demo_renderer.cur_html_state with
              font_info := demo_env.install_font (some 4) } }) :=
  font_change_is_span demo_env { demo_gfx with Font := some 4 }
    { demo_renderer with font_changed := true } rfl rfl rfl rfl rfl rfl rfl rfl rfl rfl rfl
    (by decide) (by decide) rfl (by norm_num [equal, demo_env, demo_gfx, demo_renderer])

/-! ## The rendering-mode tables (C15) -/

theorem Color.eq_transparent (E : Env) (c1 c2 : Color) (h : Color.eq E c1 c2 = true) :
    c1.transparent = c2.transparent := by
  unfold Color.eq at h
  by_contra hne
  have h1 : (c1.transparent != c2.transparent) = true := by simpa using hne
  rw [if_pos h1] at h
  exact Bool.noConfusion h

/-- After a colour is offered to the fill channel, the channel holds it or a colour equal to
it. -/
theorem store_fill_color_holds (E : Env) (c : Color) (S : CheckState) :
    (store_fill_color E c S).cur_html_state.fill_color = c ∨
      Color.eq E c (store_fill_color E c S).cur_html_state.fill_color = true := by
  unfold store_fill_color
  by_cases h : Color.eq E c S.cur_html_state.fill_color = true
  · right
    simp [h]
  · left
    simp [h]

theorem store_stroke_color_holds (E : Env) (c : Color) (S : CheckState) :
    (store_stroke_color E c S).cur_html_state.stroke_color = c ∨
      Color.eq E c (store_stroke_color E c S).cur_html_state.stroke_color = true := by
  unfold store_stroke_color
  by_cases h : Color.eq E c S.cur_html_state.stroke_color = true
  · right
    simp [h]
  · left
    simp [h]

theorem store_stroke_color_keeps_fill (E : Env) (c : Color) (S : CheckState) :
    (store_stroke_color E c S).cur_html_state.fill_color = S.cur_html_state.fill_color := by
  unfold store_stroke_color
  split_ifs <;> rfl

theorem check_rise_keeps_colours (E : Env) (state : GfxState) (S : CheckState) :
    (check_rise E state S).cur_html_state.fill_color = S.cur_html_state.fill_color ∧
      (check_rise E state S).cur_html_state.stroke_color = S.cur_html_state.stroke_color := by
  unfold check_rise
  dsimp only
  split_ifs <;> exact ⟨rfl, rfl⟩

theorem check_upto_seven (E : Env) (state : GfxState) (R : HTMLRenderer) :
    check_upto 7 E state R = some (check_word_space E state (check_letter_space E state
      (check_position E (check_rescale_font E (check_text_tm E state
        (check_font E state (check_text_pos (check_begin R)))))))) := rfl

/-- The last three blocks of a run, one by one. -/
theorem run_colour_steps (E : Env) (state : GfxState) (S7 S10 : CheckState)
    (h : run_steps ((check_steps E state).drop 7) S7 = some S10) :
    ∃ S8 S9, check_fill_color E state S7 = some S8 ∧ check_stroke_color E state S8 = some S9 ∧
      S10 = check_rise E state S9 := by
  have e : (check_steps E state).drop 7 =
      [check_fill_color E state, check_stroke_color E state,
        fun S => some (check_rise E state S)] := rfl
  rw [e] at h
  simp only [run_steps, Option.bind_eq_some] at h
  obtain ⟨S8, h8, S9, h9, S10a, h10, hS⟩ := h
  refine ⟨S8, S9, h8, h9, ?_⟩
  rw [← Option.some.inj hS, ← Option.some.inj h10]

/-- A colour with a given transparency flag and channel record. -/
theorem channel_color_transparent (active : Bool) (rgb : GfxRGB) :
    (channel_color active rgb).transparent = !active := by
  cases active <;> rfl

/-- The fill and stroke channels after a call in which their blocks ran. -/
theorem check_state_change_colours (E : Env) (state : GfxState) (R R1 : HTMLRenderer)
    (hf : R.param.fallback = false) (hr : valid_render state)
    (hrun : check_state_change E state R = some R1) :
    ((R.all_changed || R.fill_color_changed) = true →
      (R1.cur_html_state.fill_color =
          channel_color (FILL.getD state.Render.toNat false) state.FillRGB ∨
        Color.eq E (channel_color (FILL.getD state.Render.toNat false) state.FillRGB)
          R1.cur_html_state.fill_color = true)) ∧
    ((R.all_changed || R.stroke_color_changed) = true →
      (R1.cur_html_state.stroke_color =
          channel_color (STROKE.getD state.Render.toNat false) state.StrokeRGB ∨
        Color.eq E (channel_color (STROKE.getD state.Render.toNat false) state.StrokeRGB)
          R1.cur_html_state.stroke_color = true)) := by
  obtain ⟨S7, h7⟩ : ∃ S7, check_upto 7 E state R = some S7 := ⟨_, check_upto_seven E state R⟩
  obtain ⟨S10, h10, rfl⟩ := check_state_change_from E state R R1 7 S7 h7 hrun
  have hfr := check_upto_frame E state R 7 S7 h7
  obtain ⟨S8, S9, h8, h9, rfl⟩ := run_colour_steps E state _ _ h10
  rw [check_fill_color_valid E state _ hr] at h8
  rw [check_stroke_color_valid E state _ hr] at h9
  have h8 := Option.some.inj h8
  have h9 := Option.some.inj h9
  rw [hfr.param, hfr.all_changed, hfr.fill_color_changed, hf] at h8
  have hfr8 : Frame R S8.toHTMLRenderer := by
    refine hfr.frame_trans ?_
    rw [← h8]
    split_ifs
    · exact store_fill_color_frame E _ _
    · exact Frame.frame_refl _
  rw [hfr8.param, hfr8.all_changed, hfr8.stroke_color_changed, hf] at h9
  obtain ⟨kf, ks⟩ := check_rise_keeps_colours E state S9
  constructor
  · intro hd
    have e8 : S8 = store_fill_color E
        (channel_color (FILL.getD state.Render.toNat false) state.FillRGB) S7 := by
      rw [← h8, hd]
      rfl
    have e9 : S9.cur_html_state.fill_color = S8.cur_html_state.fill_color := by
      rw [← h9]
      split_ifs
      · exact store_stroke_color_keeps_fill E _ _
      · rfl
    show (check_rise E state S9).cur_html_state.fill_color = _ ∨
      Color.eq E _ (check_rise E state S9).cur_html_state.fill_color = true
    rw [kf, e9, e8]
    exact store_fill_color_holds E _ _
  · intro hd
    have e9 : S9 = store_stroke_color E
        (channel_color (STROKE.getD state.Render.toNat false) state.StrokeRGB) S8 := by
      rw [← h9, hd]
      rfl
    show (check_rise E state S9).cur_html_state.stroke_color = _ ∨
      Color.eq E _ (check_rise E state S9).cur_html_state.stroke_color = true
    rw [ks, e9]
    exact store_stroke_color_holds E _ _

/-- Transparency of a channel that holds a colour or an equal one. -/
theorem holds_transparent (E : Env) (c d : Color) (h : d = c ∨ Color.eq E c d = true) :
    d.transparent = c.transparent := by
  rcases h with rfl | h
  · rfl
  · exact (Color.eq_transparent E c d h).symm

theorem FILL_active (state : GfxState) (hr : valid_render state) :
    FILL.getD state.Render.toNat false = true ↔
      (state.Render = 0 ∨ state.Render = 2 ∨ state.Render = 4 ∨ state.Render = 6) := by
  obtain ⟨h0, h8⟩ := hr
  generalize state.Render = r at h0 h8
  interval_cases r <;> simp [FILL]

theorem STROKE_active (state : GfxState) (hr : valid_render state) :
    STROKE.getD state.Render.toNat false = true ↔
      (state.Render = 1 ∨ state.Render = 2 ∨ state.Render = 5 ∨ state.Render = 6) := by
  obtain ⟨h0, h8⟩ := hr
  generalize state.Render = r at h0 h8
  interval_cases r <;> simp [STROKE]

/-- C15: the rendering-mode tables. With the fallback off and a rendering mode `r` in 0..7 the
call returns, and: if the fill flag or the all flag was dirty, the emitted fill colour is
non-transparent exactly when `r` is 0, 2, 4 or 6, and then it is the current fill RGB of the
GfxState or a colour equal to it under the colour equality; if the stroke flag or the all
flag was dirty, the emitted stroke colour is non-transparent exactly when `r` is 1, 2, 5 or
6, and then it is the current stroke RGB or a colour equal to it; for `r` = 3 and `r` = 7
with both channels checked both colours are transparent. -/
theorem rendering_mode_table (E : Env) (state : GfxState) (R : HTMLRenderer)
    (hf : R.param.fallback = false) (hr : valid_render state) :
    ∃ R1, check_state_change E state R = some R1 ∧
      ((R.all_changed || R.fill_color_changed) = true →
        (R1.cur_html_state.fill_color.transparent = false ↔
          (state.Render = 0 ∨ state.Render = 2 ∨ state.Render = 4 ∨ state.Render = 6)) ∧
        (R1.cur_html_state.fill_color.transparent = false →
          R1.cur_html_state.fill_color = ⟨false, state.FillRGB⟩ ∨
            Color.eq E ⟨false, state.FillRGB⟩ R1.cur_html_state.fill_color = true)) ∧
      ((R.all_changed || R.stroke_color_changed) = true →
        (R1.cur_html_state.stroke_color.transparent = false ↔
          (state.Render = 1 ∨ state.Render = 2 ∨ state.Render = 5 ∨ state.Render = 6)) ∧
        (R1.cur_html_state.stroke_color.transparent = false →
          R1.cur_html_state.stroke_color = ⟨false, state.StrokeRGB⟩ ∨
            Color.eq E ⟨false, state.StrokeRGB⟩ R1.cur_html_state.stroke_color = true)) ∧
      ((R.all_changed || R.fill_color_changed) = true →
        (R.all_changed || R.stroke_color_changed) = true →
        (state.Render = 3 ∨ state.Render = 7) →
        R1.cur_html_state.fill_color.transparent = true ∧
          R1.cur_html_state.stroke_color.transparent = true) := by
  obtain ⟨R1, hrun⟩ := check_state_change_returns E state R (Or.inl hr)
  obtain ⟨hfill, hstroke⟩ := check_state_change_colours E state R R1 hf hr hrun
  have tf : (R.all_changed || R.fill_color_changed) = true →
      R1.cur_html_state.fill_color.transparent = !(FILL.getD state.Render.toNat false) :=
    fun hd => (holds_transparent E _ _ (hfill hd)).trans (channel_color_transparent _ _)
  have ts : (R.all_changed || R.stroke_color_changed) = true →
      R1.cur_html_state.stroke_color.transparent = !(STROKE.getD state.Render.toNat false) :=
    fun hd => (holds_transparent E _ _ (hstroke hd)).trans (channel_color_transparent _ _)
  refine ⟨R1, hrun, ?_, ?_, ?_⟩
  · intro hd
    have ha : R1.cur_html_state.fill_color.transparent = false ↔
        FILL.getD state.Render.toNat false = true := by
      rw [tf hd]
      cases FILL.getD state.Render.toNat false <;> simp
    refine ⟨ha.trans (FILL_active state hr), fun ht => ?_⟩
    have h := hfill hd
    rw [ha.mp ht] at h
    exact h
  · intro hd
    have ha : R1.cur_html_state.stroke_color.transparent = false ↔
        STROKE.getD state.Render.toNat false = true := by
      rw [ts hd]
      cases STROKE.getD state.Render.toNat false <;> simp
    refine ⟨ha.trans (STROKE_active state hr), fun ht => ?_⟩
    have h := hstroke hd
    rw [ha.mp ht] at h
    exact h
  · intro hd1 hd2 h37
    rw [tf hd1, ts hd2]
    rcases h37 with h | h <;> rw [h] <;> exact ⟨rfl, rfl⟩

theorem rendering_mode_table_witness :
    ∃ R1, check_state_change demo_env { demo_gfx with Render := 2 }
        { demo_renderer with all_changed := true } = some R1 ∧
      R1.cur_html_state.fill_color.transparent = false ∧
      R1.cur_html_state.stroke_color.transparent = false := by
  obtain ⟨R1, h, hfill, hstroke, _⟩ :=
    rendering_mode_table demo_env { demo_gfx with Render := 2 }
      { demo_renderer with all_changed := true } rfl ⟨by decide, by decide⟩
  exact ⟨R1, h, (hfill rfl).1.mpr (Or.inr (Or.inl rfl)),
    (hstroke rfl).1.mpr (Or.inr (Or.inl rfl))⟩

/-! ## The composed text matrix (C16) -/

theorem new_text_tm_apply (m1 m2 : TM) (h x y : ℚ) :
    tm_apply (new_text_tm m1 m2 h) x y =
      tm_apply m1 (tm_apply m2 (h * x) y).1 (tm_apply m2 (h * x) y).2 := by
  simp only [tm_apply, new_text_tm, Prod.mk.injEq]
  constructor <;> ring

theorem check_upto_two_tm (E : Env) (state : GfxState) (R : HTMLRenderer) :
    (check_font E state (check_text_pos (check_begin R))).cur_text_tm = R.cur_text_tm := by
  simp only [check_font, check_text_pos]
  split_ifs <;> rfl

theorem check_upto_two (E : Env) (state : GfxState) (R : HTMLRenderer) :
    check_upto 2 E state R = some (check_font E state (check_text_pos (check_begin R))) := rfl

theorem check_upto_three (E : Env) (state : GfxState) (R : HTMLRenderer) :
    check_upto 3 E state R =
      some (check_text_tm E state (check_font E state (check_text_pos (check_begin R)))) := rfl

/-- The matrix block stores the composed matrix when it differs from the current one, and
keeps the current one otherwise. -/
theorem check_text_tm_stores (E : Env) (state : GfxState) (S : CheckState) :
    ((S.all_changed || S.ctm_changed || S.text_mat_changed || S.hori_scale_changed) = true →
      tm_equal E (new_text_tm state.CTM state.TextMat state.HorizScaling) S.cur_text_tm 6
        = false →
      (check_text_tm E state S).cur_text_tm =
        new_text_tm state.CTM state.TextMat state.HorizScaling) ∧
    (tm_equal E (new_text_tm state.CTM state.TextMat state.HorizScaling) S.cur_text_tm 6
        = true →
      (check_text_tm E state S).cur_text_tm = S.cur_text_tm) := by
  constructor
  · intro hd hne
    simp [check_text_tm, hd, hne]
  · intro he
    unfold check_text_tm
    dsimp only
    split_ifs <;> first | rfl | simp_all

/-- C16: the composed text transform is the affine composition "CTM after text matrix after
horizontal scaling". For all matrices `m1`, `m2`, every horizontal scale `h` and every point
`(x, y)`, applying `new_text_tm m1 m2 h` to `(x, y)` equals applying `m1` to the image of
`(h * x, y)` under `m2`, in exact arithmetic. And a call of `check_state_change` with the all,
CTM, text-matrix or horizontal-scale flag dirty leaves `cur_text_tm` equal to the matrix
composed from the GfxState whenever the former `cur_text_tm` was not already `tm_equal` to
it; the call returns whenever the rendering mode is in the table or the fallback is on. -/
theorem new_text_tm_is_composition (E : Env) (state : GfxState) (R : HTMLRenderer) :
    (∀ (m1 m2 : TM) (h x y : ℚ),
      tm_apply (new_text_tm m1 m2 h) x y =
        tm_apply m1 (tm_apply m2 (h * x) y).1 (tm_apply m2 (h * x) y).2) ∧
    (∀ R1, check_state_change E state R = some R1 →
      (R.all_changed || R.ctm_changed || R.text_mat_changed || R.hori_scale_changed) = true →
      tm_equal E (new_text_tm state.CTM state.TextMat state.HorizScaling) R.cur_text_tm 6
        = false →
      R1.cur_text_tm = new_text_tm state.CTM state.TextMat state.HorizScaling) ∧
    (valid_render state ∨ R.param.fallback = true →
      ∃ R1, check_state_change E state R = some R1) := by
  refine ⟨new_text_tm_apply, ?_, check_state_change_returns E state R⟩
  intro R1 hrun hd hne
  obtain ⟨S2, h2⟩ : ∃ S2, check_upto 2 E state R = some S2 := ⟨_, check_upto_two E state R⟩
  have hfr := check_upto_frame E state R 2 S2 h2
  have htm : S2.cur_text_tm = R.cur_text_tm := by
    rw [check_upto_two] at h2
    rw [← Option.some.inj h2]
    exact check_upto_two_tm E state R
  have h3 : check_upto 3 E state R = some (check_text_tm E state S2) := by
    rw [check_upto_two] at h2
    rw [← Option.some.inj h2]
    rfl
  obtain ⟨S10, h10, rfl⟩ := check_state_change_from E state R R1 3 _ h3 hrun
  have hk := (run_drop_kept E state 3 _ _ h10).cur_text_tm (le_refl 3)
  show S10.cur_text_tm = _
  rw [hk]
  refine (check_text_tm_stores E state S2).1 ?_ ?_
  · rw [hfr.all_changed, hfr.ctm_changed, hfr.text_mat_changed, hfr.hori_scale_changed]
    exact hd
  · rw [htm]
    exact hne

/-! ## Factoring the scale out of the matrix (C17) -/

theorem check_position_idle (E : Env) (S : CheckState)
    (h : ¬ (S.need_recheck_position = true ∧ S.new_line_state < NewLineState.NLS_DIV)) :
    check_position E S = S := by
  unfold check_position
  have h1 : ¬ ((S.need_recheck_position &&
      decide (S.new_line_state < NewLineState.NLS_DIV)) = true) := by
    simpa using h
  rw [if_neg h1]

theorem check_font_need (E : Env) (state : GfxState) (S : CheckState) :
    (check_font E state S).need_recheck_position = S.need_recheck_position ∧
      (check_font E state S).cur_text_tm = S.cur_text_tm := by
  simp only [check_font]
  split_ifs <;> exact ⟨rfl, rfl⟩

theorem check_text_tm_need (E : Env) (state : GfxState) (S : CheckState) :
    (check_text_tm E state S).need_recheck_position =
      (S.need_recheck_position ||
        ((S.all_changed || S.ctm_changed || S.text_mat_changed || S.hori_scale_changed) &&
          !tm_equal E (new_text_tm state.CTM state.TextMat state.HorizScaling)
            S.cur_text_tm 6)) := by
  unfold check_text_tm
  dsimp only
  by_cases hd : (S.all_changed || S.ctm_changed || S.text_mat_changed ||
      S.hori_scale_changed) = true
  · by_cases he : tm_equal E (new_text_tm state.CTM state.TextMat state.HorizScaling)
        S.cur_text_tm 6 = true
    · simp [hd, he]
    · simp [hd, he]
  · simp [hd]

/-- The position recheck is needed exactly when the all flag or the text-position flag is
dirty, or the composed text matrix changed. -/
theorem need_recheck_eq (E : Env) (state : GfxState) (R : HTMLRenderer) (S4 : CheckState)
    (h4 : check_upto 4 E state R = some S4) :
    S4.need_recheck_position =
      (R.all_changed || R.text_pos_changed ||
        ((R.all_changed || R.ctm_changed || R.text_mat_changed || R.hori_scale_changed) &&
          !tm_equal E (new_text_tm state.CTM state.TextMat state.HorizScaling)
            R.cur_text_tm 6)) := by
  have hfr := check_upto_frame E state R 2 _ (check_upto_two E state R)
  rw [check_upto_four] at h4
  rw [← Option.some.inj h4, (check_rescale_font_keeps E _).2.2.2.2.2.2, check_text_tm_need,
    hfr.all_changed, hfr.ctm_changed, hfr.text_mat_changed, hfr.hori_scale_changed,
    (check_font_need E state _).1, (check_font_need E state _).2, check_text_pos_eq]
  simp [check_begin]

/-- C19: `check_state_change` appends an offset to the line buffer exactly when the position
recheck was needed and the final verdict is below `NLS_DIV`. For every returned renderer: if
the final verdict is `NLS_DIV`, the buffer, `draw_tx` and `draw_ty` are unchanged; if the
recheck was needed and the final verdict is below `NLS_DIV`, exactly one offset was appended
and `draw_tx = cur_tx`, `draw_ty = cur_ty`; if no recheck was needed, the buffer, `draw_tx`
and `draw_ty` are unchanged. The recheck is needed exactly when the all flag or the
text-position flag is dirty, or a matrix flag is dirty and the composed matrix is not
`tm_equal` to the current one. The call returns whenever the rendering mode is in the table or
the fallback is on. -/
theorem offset_appended_iff (E : Env) (state : GfxState) (R : HTMLRenderer) :
    (∀ R1 need, check_state_change E state R = some R1 →
      need = (R.all_changed || R.text_pos_changed ||
        ((R.all_changed || R.ctm_changed || R.text_mat_changed || R.hori_scale_changed) &&
          !tm_equal E (new_text_tm state.CTM state.TextMat state.HorizScaling)
            R.cur_text_tm 6)) →
      (R1.new_line_state = NewLineState.NLS_DIV →
        R1.text_line_buf = R.text_line_buf ∧ R1.draw_tx = R.draw_tx ∧
          R1.draw_ty = R.draw_ty) ∧
      (need = true → R1.new_line_state < NewLineState.NLS_DIV →
        (∃ w, R1.text_line_buf = R.text_line_buf ++ [BufOp.append_offset w]) ∧
          R1.draw_tx = R1.cur_tx ∧ R1.draw_ty = R1.cur_ty) ∧
      (need = false →
        R1.text_line_buf = R.text_line_buf ∧ R1.draw_tx = R.draw_tx ∧
          R1.draw_ty = R.draw_ty)) ∧
    (valid_render state ∨ R.param.fallback = true →
      ∃ R1, check_state_change E state R = some R1) := by
  refine ⟨?_, check_state_change_returns E state R⟩
  intro R1 need hrun hneed
  obtain ⟨S4, h4⟩ : ∃ S4, check_upto 4 E state R = some S4 := ⟨_, check_upto_four E state R⟩
  rw [← need_recheck_eq E state R S4 h4] at hneed
  subst hneed
  obtain ⟨q1, q2, q3, q4, q5, q6, q7, q8⟩ := check_state_change_position E state R R1 S4 h4 hrun
  have hfr := check_state_change_frame E state R R1 hrun
  have hufr := check_upto_frame E state R 4 S4 h4
  refine ⟨?_, ?_, ?_⟩
  · intro hdiv
    by_cases hran : S4.need_recheck_position = true ∧ S4.new_line_state < NewLineState.NLS_DIV
    · cases hm : (merge_position E S4.old_tm S4.cur_text_tm S4.draw_tx S4.draw_ty S4.cur_tx
          S4.cur_ty).merged with
      | true =>
        obtain ⟨m1, _⟩ := check_position_merged E S4 hran.1 hran.2 hm
        have hlt := q8 (by rw [m1]; exact hran.2)
        rw [hdiv] at hlt
        exact absurd hlt (lt_irrefl _)
      | false =>
        obtain ⟨_, n2, n3, n4⟩ := check_position_not_merged E S4 hran.1 hran.2 hm
        exact ⟨by rw [q4, n2, q1], by rw [q5, n3, q2], by rw [q6, n4, q3]⟩
    · have e := check_position_idle E S4 hran
      rw [e] at q4 q5 q6
      exact ⟨q4.trans q1, q5.trans q2, q6.trans q3⟩
  · intro hn hlt
    have h4lt : S4.new_line_state < NewLineState.NLS_DIV :=
      lt_of_le_of_lt ((check_position_mono E S4).trans q7) hlt
    cases hm : (merge_position E S4.old_tm S4.cur_text_tm S4.draw_tx S4.draw_ty S4.cur_tx
        S4.cur_ty).merged with
    | true =>
      obtain ⟨_, m2, m3, m4⟩ := check_position_merged E S4 hn h4lt hm
      refine ⟨⟨_, by rw [q4, m2, q1]⟩, ?_, ?_⟩
      · rw [q5, m3, hufr.cur_tx]
        exact hfr.2.2.2.1.symm
      · rw [q6, m4, hufr.cur_ty]
        exact hfr.2.2.2.2.symm
    | false =>
      obtain ⟨n1, _⟩ := check_position_not_merged E S4 hn h4lt hm
      rw [n1] at q7
      rw [nls_eq_DIV_of_le q7] at hlt
      exact absurd hlt (lt_irrefl _)
  · intro hn
    have e := check_position_skip E S4 hn
    rw [e] at q4 q5 q6
    exact ⟨q4.trans q1, q5.trans q2, q6.trans q3⟩

/-! ## No pending horizontal gap after `prepare_text_line` (C20) -/

theorem prepare_text_line_opens_block_witness :
    prepare_text_line demo_env demo_gfx { demo_renderer with line_opened := false } =
      { ({ demo_renderer with line_opened := false } : HTMLRenderer) with
        new_line_state := .NLS_DIV
        cur_html_state :=
          { demo_renderer.cur_html_state with
            x := (demo_gfx.transform demo_gfx.CurX demo_gfx.CurY).1
            y := (demo_gfx.transform demo_gfx.CurX demo_gfx.CurY).2 }
        draw_tx := demo_renderer.cur_tx
        draw_ty := demo_renderer.cur_ty
        text_line_buf := demo_renderer.text_line_buf ++
          [.append_state { demo_renderer.cur_html_state with
            x := (demo_gfx.transform demo_gfx.CurX demo_gfx.CurY).1
            y := (demo_gfx.transform demo_gfx.CurX demo_gfx.CurY).2 }]
        line_opened := true } :=
  (prepare_text_line_opens_block demo_env demo_gfx
    { demo_renderer with line_opened := false }).1 rfl

theorem offset_appended_iff_witness :
    ∃ R1, check_state_change demo_env demo_gfx
        { demo_renderer with text_pos_changed := true, cur_tx := 5 } = some R1 ∧
      (∃ w, R1.text_line_buf = [] ++ [BufOp.append_offset w]) ∧
      R1.draw_tx = R1.cur_tx ∧ R1.draw_ty = R1.cur_ty := by
  obtain ⟨R1, h, _, _, hc⟩ := text_pos_only_result demo_env demo_env_EPS_pos demo_gfx
    { demo_renderer with text_pos_changed := true, cur_tx := 5 }
    rfl rfl rfl rfl rfl rfl rfl rfl rfl rfl rfl rfl
  have hlt : R1.new_line_state < NewLineState.NLS_DIV := by
    rcases hc with ⟨_, hn, _⟩ | ⟨hbad, _⟩
    · rw [hn]
      exact nls_NONE_lt_DIV
    · exfalso
      revert hbad
      norm_num [horizontal_merge_ok, equal, demo_env, demo_renderer, ID_MATRIX]
  exact ⟨R1, h,
    ((offset_appended_iff demo_env demo_gfx
      { demo_renderer with text_pos_changed := true, cur_tx := 5 }).1 R1 true h rfl).2.1
      rfl hlt⟩

/-! ## A move of the text position alone (C2) -/

end pdf2htmlEX
